import Mathlib

/-!
Verification of the CVSS-Server core engines.

This file gives a shallow embedding, in Lean 4, of the two algorithmic
components of the repository:

* `src/cvss.py` — the score engine (`round_up`, `severity_from_score`,
  `build_vector`, `calculate_base_score`);
* `src/document_processor.py` — the metric-inference engine
  (`DocumentProcessor.cvss_patterns`, `detect_cvss_metrics`,
  `extract_cve_id`).

Python dictionaries are embedded as association lists of strings in
insertion order (`dictInsert` is Python dict assignment: replace in place
or append; `setdefault` is `dict.setdefault`).  Python floats are embedded
as exact rationals: every constant in the score formula is a decimal
literal, so the formula is expressed exactly over `ℚ`.  The regular
expressions of the pattern table all have the restricted shape
`\b w1 (\s+ w2)* \b`; the matcher `patSearch` implements `re.search` for
exactly that shape (word-boundary anchored word sequences over the
lowercased text).
-/

/-- Python `str.upper()` restricted to its per-character ASCII action,
which is all the code relies on (keys and values are ASCII). -/
def pyUpper (s : String) : String := String.mk (s.data.map Char.toUpper)

/-- Python `str.lower()` restricted to its per-character ASCII action. -/
def pyLower (s : String) : String := String.mk (s.data.map Char.toLower)

/-- Python dict assignment `d[k] = v` on an insertion-ordered association
list: replace the value at the existing key in place, else append. -/
def dictInsert : List (String × String) → String → String → List (String × String)
  | [], k, v => [(k, v)]
  | p :: d, k, v => if p.1 = k then (k, v) :: d else p :: dictInsert d k v

/-- Python `k in d`. -/
def hasKey (d : List (String × String)) (k : String) : Bool :=
  (List.lookup k d).isSome

/-- Python `d.setdefault(k, v)`: insert `(k, v)` at the end iff `k` is absent. -/
def setdefault (d : List (String × String)) (k v : String) : List (String × String) :=
  if hasKey d k then d else d ++ [(k, v)]

/-- Python `d[k]` for dicts whose keys are known to be present (defaulting
to `""` keeps the function total; all uses in the embedded code look up
keys that were installed by `setdefault` or literal inserts). -/
def mget (d : List (String × String)) (k : String) : String :=
  (List.lookup k d).getD ""

/-- The dict comprehension in `calculate_base_score`:
`{k.upper(): v.upper() for k, v in metrics.items() if v}`. -/
def normFiltered (metrics : List (String × String)) : List (String × String) :=
  metrics.foldl (fun d kv => if kv.2 = "" then d else dictInsert d (pyUpper kv.1) (pyUpper kv.2)) []

/-- The eight `m.setdefault(...)` calls of `calculate_base_score`
(lines 72-79 of `src/cvss.py`). -/
def withDefaults (d : List (String × String)) : List (String × String) :=
  setdefault (setdefault (setdefault (setdefault (setdefault (setdefault (setdefault
    (setdefault d "AV" "L") "AC" "H") "PR" "N") "UI" "N") "S" "U") "C" "N") "I" "N") "A" "N"

/-- The normalized, defaulted metric dict `m` used by `calculate_base_score`. -/
def normalized (metrics : List (String × String)) : List (String × String) :=
  withDefaults (normFiltered metrics)

/-- Lookup `av_vals.get(v, 0.55)` with `av_vals = {"N": 0.85, "A": 0.62, "L": 0.55, "P": 0.2}`. -/
def av_weight (v : String) : ℚ :=
  if v = "N" then 0.85 else if v = "A" then 0.62 else if v = "L" then 0.55
  else if v = "P" then 0.2 else 0.55

/-- Lookup `ac_vals.get(v, 0.44)` with `ac_vals = {"L": 0.77, "H": 0.44}`. -/
def ac_weight (v : String) : ℚ :=
  if v = "L" then 0.77 else if v = "H" then 0.44 else 0.44

/-- Lookup `pr_vals[scope].get(v, 0.85)`; the scope argument is the already
resolved scope, which is always `"U"` or `"C"` in the code. -/
def pr_weight (scope v : String) : ℚ :=
  if scope = "C" then
    (if v = "N" then 0.85 else if v = "L" then 0.68 else if v = "H" then 0.5 else 0.85)
  else
    (if v = "N" then 0.85 else if v = "L" then 0.62 else if v = "H" then 0.27 else 0.85)

/-- Lookup `ui_vals.get(v, 0.85)` with `ui_vals = {"N": 0.85, "R": 0.62}`. -/
def ui_weight (v : String) : ℚ :=
  if v = "N" then 0.85 else if v = "R" then 0.62 else 0.85

/-- Lookup `impact_vals.get(v, 0.0)` with `impact_vals = {"N": 0.0, "L": 0.22, "H": 0.56}`. -/
def impact_weight (v : String) : ℚ :=
  if v = "N" then 0 else if v = "L" then 0.22 else if v = "H" then 0.56 else 0

/-- Resolution `scope = m["S"] if m["S"] in ("U", "C") else "U"` (line 92 of `src/cvss.py`). -/
def resolve_scope (s : String) : String :=
  if s = "U" ∨ s = "C" then s else "U"

/-- Function `round_up` of `src/cvss.py`: `math.ceil(value * 10) / 10.0`. -/
def round_up (value : ℚ) : ℚ := (⌈value * 10⌉ : ℚ) / 10

/-- Function `severity_from_score` of `src/cvss.py`. -/
def severity_from_score (score : ℚ) : String :=
  if score = 0 then "None"
  else if 0.1 ≤ score ∧ score ≤ 3.9 then "Low"
  else if 4.0 ≤ score ∧ score ≤ 6.9 then "Medium"
  else if 7.0 ≤ score ∧ score ≤ 8.9 then "High"
  else "Critical"

/-- The merged dict `m = {**defaults, **{k.upper(): v.upper() for k, v in
metrics.items()}}` built inside `build_vector`. -/
def vector_merge (metrics : List (String × String)) : List (String × String) :=
  metrics.foldl (fun d kv => dictInsert d (pyUpper kv.1) (pyUpper kv.2))
    [("AV", "L"), ("AC", "H"), ("PR", "N"), ("UI", "N"), ("S", "U"), ("C", "N"), ("I", "N"), ("A", "N")]

/-- Function `build_vector` of `src/cvss.py`: merge the uppercased input over the
defaults dict and join the nine parts with `"/"`. -/
def build_vector (metrics : List (String × String)) : String :=
  let m := vector_merge metrics
  String.intercalate "/"
    ["CVSS:3.1",
     "AV:" ++ mget m "AV", "AC:" ++ mget m "AC", "PR:" ++ mget m "PR", "UI:" ++ mget m "UI",
     "S:" ++ mget m "S", "C:" ++ mget m "C", "I:" ++ mget m "I", "A:" ++ mget m "A"]

/-- Lines 99-111 of `src/cvss.py`: the numeric part of the base formula,
taking the already looked-up weights and whether the resolved scope is
`"C"`. -/
def base_score_num (av ac pr ui : ℚ) (scopeC : Bool) (c i a : ℚ) : ℚ :=
  let exploitability := 8.22 * av * ac * pr * ui
  let impact := 1 - (1 - c) * (1 - i) * (1 - a)
  let impact_subscore :=
    if scopeC then 7.52 * (impact - 0.029) - 3.25 * (impact - 0.02) ^ 15
    else 6.42 * impact
  if impact ≤ 0 then 0
  else round_up (min ((impact_subscore + exploitability) * (if scopeC then 1.08 else 1)) 10)

/-- Function `calculate_base_score` of `src/cvss.py`, returning
`(base_score, severity, vector)`. -/
def calculate_base_score (metrics : List (String × String)) : ℚ × String × String :=
  let m := normalized metrics
  let scope := resolve_scope (mget m "S")
  let base_score :=
    base_score_num (av_weight (mget m "AV")) (ac_weight (mget m "AC"))
      (pr_weight scope (mget m "PR")) (ui_weight (mget m "UI")) (scope = "C")
      (impact_weight (mget m "C")) (impact_weight (mget m "I")) (impact_weight (mget m "A"))
  (base_score, severity_from_score base_score, build_vector m)

def spec_severity_table (s : ℚ) : String :=
  if s = 0 then "None"
  else if 0.1 ≤ s ∧ s ≤ 3.9 then "Low"
  else if 4.0 ≤ s ∧ s ≤ 6.9 then "Medium"
  else if 7.0 ≤ s ∧ s ≤ 8.9 then "High"
  else if 9.0 ≤ s ∧ s ≤ 10.0 then "Critical"
  else "undefined"

def critInput : List (String × String) :=
  [("AV", "N"), ("AC", "L"), ("PR", "N"), ("UI", "N"), ("S", "C"), ("C", "H"), ("I", "H"), ("A", "H")]

def cleanDict (d : List (String × String)) : Prop :=
  (∀ p ∈ d, pyUpper p.1 = p.1 ∧ pyUpper p.2 = p.2) ∧ (d.map Prod.fst).Nodup

/-! ### The inference engine of `src/document_processor.py`

Every regex in `DocumentProcessor.cvss_patterns` has the restricted shape
of one or more literal lowercase words, separated by one-or-more
whitespace, anchored on both sides by word boundaries.  A pattern is
embedded as its list of words; `patSearch` implements `re.search` for
exactly that pattern shape. -/

/-- Python regex word characters (`\w` over the ASCII text at hand). -/

def isWordChar (c : Char) : Bool :=
  ('a' ≤ c && c ≤ 'z') || ('A' ≤ c && c ≤ 'Z') || ('0' ≤ c && c ≤ '9') || c == '_'

/-- Python regex whitespace (`\s` over ASCII). -/
def isSpaceChar (c : Char) : Bool :=
  c == ' ' || c == '\t' || c == '\n' || c == '\r' || c == '\x0b' || c == '\x0c'

/-- Match the literal characters of one pattern word at the head of the
text, returning the rest of the text. -/
def matchChars : List Char → List Char → Option (List Char)
  | [], rest => some rest
  | _ :: _, [] => none
  | p :: ps, c :: cs => if p = c then matchChars ps cs else none

/-- Match a word sequence with mandatory whitespace runs in between. -/
def matchWords : List (List Char) → List Char → Option (List Char)
  | [], rest => some rest
  | [w], rest => matchChars w rest
  | w :: ws, rest =>
    match matchChars w rest with
    | none => none
    | some rest2 =>
      match rest2 with
      | [] => none
      | c :: cs => if isSpaceChar c then matchWords ws (cs.dropWhile isSpaceChar) else none

/-- Match the whole pattern at the current position, including the
closing word boundary. -/
def matchAt (words : List (List Char)) (t : List Char) : Bool :=
  match matchWords words t with
  | none => false
  | some rest =>
    match rest with
    | [] => true
    | c :: _ => !isWordChar c

/-- Try every later start position whose preceding character is not a
word character (the opening boundary of the pattern). -/
def patSearchFrom (words : List (List Char)) : List Char → Bool
  | [] => false
  | c :: cs => (!isWordChar c && matchAt words cs) || patSearchFrom words cs

/-- Search `re.search` of a word-boundary anchored word-sequence pattern. -/
def patSearch (words : List String) (t : List Char) : Bool :=
  matchAt (words.map String.data) t || patSearchFrom (words.map String.data) t

/-- Table `DocumentProcessor.cvss_patterns` (lines 30-75 of
`src/document_processor.py`), each regex rendered as its word list. -/
def cvss_patterns : List (String × List (String × List (List String))) :=
  [("AV",
    [("N", [["network"], ["remote"], ["over", "network"], ["network", "accessible"], ["network", "based"]]),
     ("A", [["adjacent"], ["same", "network"], ["local", "network"], ["subnet"]]),
     ("L", [["local"], ["on", "system"], ["requires", "local", "access"], ["local", "access"]]),
     ("P", [["physical"], ["physical", "access"], ["requires", "physical", "access"]])]),
   ("AC",
    [("L", [["low", "complexity"], ["simple"], ["easy"], ["trivial"], ["low"], ["simple", "to", "exploit"]]),
     ("H", [["high", "complexity"], ["complex"], ["difficult"], ["requires", "special"], ["high"]])]),
   ("PR",
    [("N", [["no", "privileges"], ["unprivileged"], ["no", "authentication"], ["no", "privileges", "required"], ["no", "privileges", "needed"]]),
     ("L", [["low", "privileges"], ["basic", "user"], ["user", "level"], ["low"]]),
     ("H", [["high", "privileges"], ["admin"], ["root"], ["elevated"], ["high"]])]),
   ("UI",
    [("N", [["no", "user", "interaction"], ["automatic"], ["no", "user", "action"], ["no", "user", "interaction", "required"], ["no", "user", "interaction", "needed"]]),
     ("R", [["requires", "user", "interaction"], ["user", "must", "click"], ["user", "action"], ["user", "interaction", "required"]])]),
   ("S",
    [("U", [["unchanged", "scope"], ["same", "component"], ["within", "component"], ["unchanged"], ["same", "component"]]),
     ("C", [["changed", "scope"], ["different", "component"], ["cross", "component"], ["changed"], ["different", "component"]])]),
   ("C",
    [("N", [["no", "confidentiality", "impact"], ["no", "data", "disclosure"], ["no", "impact"], ["none"], ["no", "data", "leak"]]),
     ("L", [["low", "confidentiality", "impact"], ["minor", "data", "leak"], ["low", "impact"], ["minor"]]),
     ("H", [["high", "confidentiality", "impact"], ["complete", "data", "disclosure"], ["high", "impact"], ["complete"], ["high"]])]),
   ("I",
    [("N", [["no", "integrity", "impact"], ["no", "data", "modification"], ["no", "impact"], ["none"], ["no", "data", "modification"]]),
     ("L", [["low", "integrity", "impact"], ["minor", "data", "modification"], ["low", "impact"], ["minor"]]),
     ("H", [["high", "integrity", "impact"], ["complete", "data", "modification"], ["high", "impact"], ["complete"], ["high"]])]),
   ("A",
    [("N", [["no", "availability", "impact"], ["no", "service", "disruption"], ["no", "availability"], ["none"], ["no", "service", "disruption"]]),
     ("L", [["low", "availability", "impact"], ["minor", "service", "disruption"], ["low", "availability"], ["minor"]]),
     ("H", [["high", "availability", "impact"], ["complete", "service", "disruption"], ["high", "availability"], ["complete"], ["high"], ["high", "availability"]])])]

/-- The conditional at line 140 of `src/document_processor.py` choosing
the per-metric priority order of candidate values. -/
def priority_order (metric : String) : List String :=
  if metric = "C" ∨ metric = "I" ∨ metric = "A" then ["H", "L", "N"]
  else if metric = "AV" then ["N", "A", "L", "P"]
  else if metric = "AC" then ["L", "H"]
  else if metric = "PR" then ["N", "L", "H"]
  else if metric = "UI" then ["N", "R"]
  else ["U", "C"]

/-- The inner loop of `detect_cvss_metrics`: walk the priority order and
return the first candidate value one of whose patterns matches
(`if value in values: for pattern in patterns: if re.search(...): break`). -/
def detectValue (t : List Char) (values : List (String × List (List String))) :
    List String → Option String
  | [] => none
  | v :: rest =>
    match values.lookup v with
    | some pats => if pats.any (fun p => patSearch p t) then some v else detectValue t values rest
    | none => detectValue t values rest

/-- One iteration of the outer metric loop of `detect_cvss_metrics`:
record the detected value, in table order, when there is one. -/
def detect_step (t : List Char)
    (acc : List (String × String)) (mp : String × List (String × List (List String))) :
    List (String × String) :=
  match detectValue t mp.2 (priority_order mp.1) with
  | some v => acc ++ [(mp.1, v)]
  | none => acc

/-- Function `detect_cvss_metrics` of `src/document_processor.py`: lowercase the
text, then for each metric of the pattern table (in table order) record
the first matching candidate value; metrics with no match are absent. -/
def detect_cvss_metrics (text : String) : List (String × String) :=
  cvss_patterns.foldl (detect_step (pyLower text).data) []

/-- Digit test for the CVE regex. -/
def isDigitChar (c : Char) : Bool := '0' ≤ c && c ≤ '9'

/-- Try to match `CVE-\d{4}-\d{4,7}` (case-insensitive on the letters) at
the current position, returning the matched characters. -/
def matchCVEAt (t : List Char) : Option (List Char) :=
  match t with
  | c1 :: c2 :: c3 :: c4 :: rest =>
    if Char.toLower c1 = 'c' && Char.toLower c2 = 'v' && Char.toLower c3 = 'e' && c4 = '-' then
      match rest with
      | d1 :: d2 :: d3 :: d4 :: h :: rest2 =>
        if isDigitChar d1 && isDigitChar d2 && isDigitChar d3 && isDigitChar d4 && h = '-' then
          let ds := rest2.takeWhile isDigitChar
          if 4 ≤ ds.length then some ([c1, c2, c3, c4, d1, d2, d3, d4, h] ++ ds.take 7)
          else none
        else none
      | _ => none
    else none
  | _ => none

/-- Scan the text left to right for the first CVE match (`re.search`). -/
def searchCVE : List Char → Option (List Char)
  | [] => none
  | c :: cs =>
    match matchCVEAt (c :: cs) with
    | some m => some m
    | none => searchCVE cs

/-- Function `extract_cve_id` of `src/document_processor.py`. -/
def extract_cve_id (text : String) : Option String :=
  (searchCVE text.data).map String.mk

/-- Does any pattern of any candidate value of this metric match the
lowercased text?  (The code leaves the metric absent exactly when not.) -/
def metric_matched (text : String) (m : String) : Bool :=
  ((cvss_patterns.lookup m).getD []).any
    (fun vp => vp.2.any (fun p => patSearch p (pyLower text).data))

/-- Does any pattern of this particular candidate value match? -/
def value_matched (text : String) (m v : String) : Bool :=
  ((((cvss_patterns.lookup m).getD []).lookup v).getD []).any
    (fun p => patSearch p (pyLower text).data)

def c8_text : String :=
  "This vulnerability allows remote attackers to execute code over the network. The attack complexity is low. No privileges are required. No user interaction is needed. Scope is changed. Complete data disclosure, data modification, and service disruption are possible."

def splitChar (sep : Char) (l : List Char) : List (List Char) :=
  l.foldr (fun c acc =>
    if c = sep then [] :: acc
    else match acc with
      | [] => [[c]]
      | g :: gs => (c :: g) :: gs) [[]]

/-- Modelled from the spec: the source has no vector-string parser (§1
excludes parsing), so the re-extraction of the `CODE:VALUE` tokens in the
round-trip property is modelled directly from the spec's words: drop the
scheme tag, split the string on `/`, and split each token on `:`. -/
def extract_tokens (vec : String) : List (String × String) :=
  ((splitChar '/' vec.data).drop 1).map (fun tok =>
    match splitChar ':' tok with
    | [cd, v] => (String.mk cd, String.mk v)
    | _ => (String.mk tok, ""))

set_option maxRecDepth 10000



/-! ### Association-list lemmas -/

lemma lookup_cons_pair (k a b : String) (t : List (String × String)) :
    List.lookup k ((a, b) :: t) = if k = a then some b else List.lookup k t := by
  by_cases h : k = a
  · subst h; simp [List.lookup_cons]
  · simp [List.lookup_cons, beq_false_of_ne h, h]

lemma lookup_append (k : String) (l1 l2 : List (String × String)) :
    List.lookup k (l1 ++ l2) = (List.lookup k l1).or (List.lookup k l2) := by
  induction l1 with
  | nil => simp
  | cons p t ih =>
    obtain ⟨a, b⟩ := p
    rw [List.cons_append, lookup_cons_pair, lookup_cons_pair]
    split <;> simp [ih]

lemma lookup_dictInsert (d : List (String × String)) (k v k' : String) :
    List.lookup k' (dictInsert d k v) = if k' = k then some v else List.lookup k' d := by
  induction d with
  | nil => simp [dictInsert, lookup_cons_pair]
  | cons p t ih =>
    obtain ⟨a, b⟩ := p
    by_cases hp : a = k
    · subst hp
      have hins : dictInsert ((a, b) :: t) a v = (a, v) :: t := by simp [dictInsert]
      rw [hins, lookup_cons_pair, lookup_cons_pair]
      by_cases hk : k' = a <;> simp [hk]
    · simp only [dictInsert]
      rw [if_neg hp, lookup_cons_pair, lookup_cons_pair, ih]
      by_cases hk2 : k' = a
      · subst hk2
        have hkk : ¬ k' = k := hp
        simp [hkk]
      · simp [hk2]

lemma lookup_setdefault (d : List (String × String)) (k v k' : String) :
    List.lookup k' (setdefault d k v) =
      if k' = k then some ((List.lookup k d).getD v) else List.lookup k' d := by
  unfold setdefault hasKey
  by_cases h : (List.lookup k d).isSome
  · rw [if_pos h]
    by_cases hk : k' = k
    · subst hk
      obtain ⟨w, hw⟩ := Option.isSome_iff_exists.mp h
      simp [hw]
    · simp [hk]
  · rw [if_neg h]
    rw [lookup_append]
    rw [Option.not_isSome_iff_eq_none] at h
    by_cases hk : k' = k
    · subst hk
      simp [h, lookup_cons_pair]
    · simp [hk, lookup_cons_pair]

lemma mget_setdefault (d : List (String × String)) (k v k' : String) :
    mget (setdefault d k v) k' =
      if k' = k then (List.lookup k d).getD v else mget d k' := by
  unfold mget
  rw [lookup_setdefault]
  split <;> rfl

/-- Peeling one irrelevant `setdefault` layer off an `mget`. -/
lemma mget_setdefault_ne (d : List (String × String)) (k v k' : String) (h : k' ≠ k) :
    mget (setdefault d k v) k' = mget d k' := by
  rw [mget_setdefault, if_neg h]

lemma mget_setdefault_eq (d : List (String × String)) (k v : String) :
    mget (setdefault d k v) k = (List.lookup k d).getD v := by
  rw [mget_setdefault, if_pos rfl]

lemma mget_withDefaults_AV (d : List (String × String)) :
    mget (withDefaults d) "AV" = (List.lookup "AV" d).getD "L" := by
  unfold withDefaults
  rw [mget_setdefault_ne _ _ _ _ (by decide), mget_setdefault_ne _ _ _ _ (by decide),
    mget_setdefault_ne _ _ _ _ (by decide), mget_setdefault_ne _ _ _ _ (by decide),
    mget_setdefault_ne _ _ _ _ (by decide), mget_setdefault_ne _ _ _ _ (by decide),
    mget_setdefault_ne _ _ _ _ (by decide), mget_setdefault_eq]

lemma mget_withDefaults_AC (d : List (String × String)) :
    mget (withDefaults d) "AC" = (List.lookup "AC" d).getD "H" := by
  unfold withDefaults
  rw [mget_setdefault_ne _ _ _ _ (by decide), mget_setdefault_ne _ _ _ _ (by decide),
    mget_setdefault_ne _ _ _ _ (by decide), mget_setdefault_ne _ _ _ _ (by decide),
    mget_setdefault_ne _ _ _ _ (by decide), mget_setdefault_ne _ _ _ _ (by decide),
    mget_setdefault_eq, lookup_setdefault, if_neg (by decide)]

lemma mget_withDefaults_PR (d : List (String × String)) :
    mget (withDefaults d) "PR" = (List.lookup "PR" d).getD "N" := by
  unfold withDefaults
  rw [mget_setdefault_ne _ _ _ _ (by decide), mget_setdefault_ne _ _ _ _ (by decide),
    mget_setdefault_ne _ _ _ _ (by decide), mget_setdefault_ne _ _ _ _ (by decide),
    mget_setdefault_ne _ _ _ _ (by decide), mget_setdefault_eq,
    lookup_setdefault, if_neg (by decide), lookup_setdefault, if_neg (by decide)]

lemma mget_withDefaults_UI (d : List (String × String)) :
    mget (withDefaults d) "UI" = (List.lookup "UI" d).getD "N" := by
  unfold withDefaults
  rw [mget_setdefault_ne _ _ _ _ (by decide), mget_setdefault_ne _ _ _ _ (by decide),
    mget_setdefault_ne _ _ _ _ (by decide), mget_setdefault_ne _ _ _ _ (by decide),
    mget_setdefault_eq, lookup_setdefault, if_neg (by decide),
    lookup_setdefault, if_neg (by decide), lookup_setdefault, if_neg (by decide)]

lemma mget_withDefaults_S (d : List (String × String)) :
    mget (withDefaults d) "S" = (List.lookup "S" d).getD "U" := by
  unfold withDefaults
  rw [mget_setdefault_ne _ _ _ _ (by decide), mget_setdefault_ne _ _ _ _ (by decide),
    mget_setdefault_ne _ _ _ _ (by decide), mget_setdefault_eq,
    lookup_setdefault, if_neg (by decide), lookup_setdefault, if_neg (by decide),
    lookup_setdefault, if_neg (by decide), lookup_setdefault, if_neg (by decide)]

lemma mget_withDefaults_C (d : List (String × String)) :
    mget (withDefaults d) "C" = (List.lookup "C" d).getD "N" := by
  unfold withDefaults
  rw [mget_setdefault_ne _ _ _ _ (by decide), mget_setdefault_ne _ _ _ _ (by decide),
    mget_setdefault_eq, lookup_setdefault, if_neg (by decide),
    lookup_setdefault, if_neg (by decide), lookup_setdefault, if_neg (by decide),
    lookup_setdefault, if_neg (by decide), lookup_setdefault, if_neg (by decide)]

lemma mget_withDefaults_I (d : List (String × String)) :
    mget (withDefaults d) "I" = (List.lookup "I" d).getD "N" := by
  unfold withDefaults
  rw [mget_setdefault_ne _ _ _ _ (by decide), mget_setdefault_eq,
    lookup_setdefault, if_neg (by decide), lookup_setdefault, if_neg (by decide),
    lookup_setdefault, if_neg (by decide), lookup_setdefault, if_neg (by decide),
    lookup_setdefault, if_neg (by decide), lookup_setdefault, if_neg (by decide)]

lemma mget_withDefaults_A (d : List (String × String)) :
    mget (withDefaults d) "A" = (List.lookup "A" d).getD "N" := by
  unfold withDefaults
  rw [mget_setdefault_eq, lookup_setdefault, if_neg (by decide),
    lookup_setdefault, if_neg (by decide), lookup_setdefault, if_neg (by decide),
    lookup_setdefault, if_neg (by decide), lookup_setdefault, if_neg (by decide),
    lookup_setdefault, if_neg (by decide), lookup_setdefault, if_neg (by decide)]

/-! ### Weight lemmas -/

lemma av_weight_pos (v : String) : 0 < av_weight v := by
  unfold av_weight; split_ifs <;> norm_num

lemma ac_weight_pos (v : String) : 0 < ac_weight v := by
  unfold ac_weight; split_ifs <;> norm_num

lemma pr_weight_pos (s v : String) : 0 < pr_weight s v := by
  unfold pr_weight; split_ifs <;> norm_num

lemma ui_weight_pos (v : String) : 0 < ui_weight v := by
  unfold ui_weight; split_ifs <;> norm_num

lemma impact_weight_cases (v : String) :
    impact_weight v = 0 ∨ impact_weight v = 0.22 ∨ impact_weight v = 0.56 := by
  unfold impact_weight; split_ifs <;> simp

/-! ### Shape of the numeric score -/

lemma base_score_num_eq_zero (av ac pr ui c i a : ℚ) (scopeC : Bool)
    (h : 1 - (1 - c) * (1 - i) * (1 - a) ≤ 0) :
    base_score_num av ac pr ui scopeC c i a = 0 := by
  simp only [base_score_num]
  rw [if_pos h]

lemma base_score_num_eq_round (av ac pr ui c i a : ℚ) (scopeC : Bool)
    (h : ¬ (1 - (1 - c) * (1 - i) * (1 - a) ≤ 0)) :
    base_score_num av ac pr ui scopeC c i a =
      round_up (min
        (((if scopeC then
              7.52 * ((1 - (1 - c) * (1 - i) * (1 - a)) - 0.029) -
                3.25 * ((1 - (1 - c) * (1 - i) * (1 - a)) - 0.02) ^ 15
            else 6.42 * (1 - (1 - c) * (1 - i) * (1 - a))) +
          8.22 * av * ac * pr * ui) * (if scopeC then 1.08 else 1)) 10) := by
  simp only [base_score_num]
  rw [if_neg h]

lemma cast_toNat_of_nonneg (z : ℤ) (h : 0 ≤ z) : ((z.toNat : ℕ) : ℚ) = (z : ℚ) := by
  exact_mod_cast congrArg (fun w : ℤ => (w : ℚ)) (Int.toNat_of_nonneg h)

lemma exists_round_up_min (r : ℚ) (hr : 0 < r) :
    ∃ n : ℕ, n ≤ 100 ∧ round_up (min r 10) = (n : ℚ) / 10 := by
  have h1 : 0 < min r 10 := lt_min hr (by norm_num)
  have h2 : min r 10 ≤ 10 := min_le_right r 10
  have hc1 : 0 < ⌈min r 10 * 10⌉ := Int.ceil_pos.mpr (by nlinarith)
  have hc2 : ⌈min r 10 * 10⌉ ≤ 100 := Int.ceil_le.mpr (by push_cast; nlinarith)
  refine ⟨⌈min r 10 * 10⌉.toNat, ?_, ?_⟩
  · omega
  · unfold round_up
    congr 1
    exact (cast_toNat_of_nonneg _ (le_of_lt hc1)).symm

lemma base_score_num_shape (av ac pr ui c i a : ℚ) (scopeC : Bool)
    (hav : 0 < av) (hac : 0 < ac) (hpr : 0 < pr) (hui : 0 < ui)
    (hc : c = 0 ∨ c = 0.22 ∨ c = 0.56)
    (hi : i = 0 ∨ i = 0.22 ∨ i = 0.56)
    (ha : a = 0 ∨ a = 0.22 ∨ a = 0.56) :
    ∃ n : ℕ, n ≤ 100 ∧ base_score_num av ac pr ui scopeC c i a = (n : ℚ) / 10 := by
  have h8 : (0 : ℚ) < 8.22 * av * ac * pr * ui := by positivity
  rcases le_or_lt ((1 : ℚ) - (1 - c) * (1 - i) * (1 - a)) 0 with himp | himp
  · exact ⟨0, by norm_num, by rw [base_score_num_eq_zero av ac pr ui c i a scopeC himp]; norm_num⟩
  · rw [base_score_num_eq_round av ac pr ui c i a scopeC (not_le.mpr himp)]
    refine exists_round_up_min _ (mul_pos (add_pos ?_ h8) (by cases scopeC <;> norm_num))
    cases scopeC
    · norm_num
      nlinarith [himp]
    · norm_num
      rcases hc with rfl | rfl | rfl <;> rcases hi with rfl | rfl | rfl <;>
        rcases ha with rfl | rfl | rfl <;>
        first
          | (norm_num; done)
          | (norm_num at himp)

/-! ### Projections of `calculate_base_score` -/

lemma calc_fst (metrics : List (String × String)) :
    (calculate_base_score metrics).1 =
      base_score_num (av_weight (mget (normalized metrics) "AV"))
        (ac_weight (mget (normalized metrics) "AC"))
        (pr_weight (resolve_scope (mget (normalized metrics) "S")) (mget (normalized metrics) "PR"))
        (ui_weight (mget (normalized metrics) "UI"))
        (decide (resolve_scope (mget (normalized metrics) "S") = "C"))
        (impact_weight (mget (normalized metrics) "C"))
        (impact_weight (mget (normalized metrics) "I"))
        (impact_weight (mget (normalized metrics) "A")) := rfl

lemma calc_snd (metrics : List (String × String)) :
    (calculate_base_score metrics).2.1 = severity_from_score ((calculate_base_score metrics).1) := rfl

lemma calc_vec (metrics : List (String × String)) :
    (calculate_base_score metrics).2.2 = build_vector (normalized metrics) := rfl

/-! ### The severity boundary table as the specification states it -/

/-- Severity table as stated by the specification: `0.0 -> None`,
`0.1-3.9 -> Low`, `4.0-6.9 -> Medium`, `7.0-8.9 -> High`,
`9.0-10.0 -> Critical`; scores outside the table get a marker label. -/

lemma severity_eq_table (n : ℕ) (hn : n ≤ 100) :
    severity_from_score ((n : ℚ) / 10) = spec_severity_table ((n : ℚ) / 10) ∧
      spec_severity_table ((n : ℚ) / 10) ≠ "undefined" := by
  have h10 : (0 : ℚ) < 10 := by norm_num
  have e0 : (((n : ℚ) / 10) = 0) ↔ n = 0 := by
    rw [div_eq_iff (ne_of_gt h10), zero_mul, Nat.cast_eq_zero]
  have e1 : ((0.1 : ℚ) ≤ (n : ℚ) / 10) ↔ 1 ≤ n := by
    rw [le_div_iff₀ h10]; norm_num
  have e39 : ((n : ℚ) / 10 ≤ 3.9) ↔ n ≤ 39 := by
    rw [div_le_iff₀ h10]; norm_num
  have e40 : ((4.0 : ℚ) ≤ (n : ℚ) / 10) ↔ 40 ≤ n := by
    rw [le_div_iff₀ h10]; norm_num
  have e69 : ((n : ℚ) / 10 ≤ 6.9) ↔ n ≤ 69 := by
    rw [div_le_iff₀ h10]; norm_num
  have e70 : ((7.0 : ℚ) ≤ (n : ℚ) / 10) ↔ 70 ≤ n := by
    rw [le_div_iff₀ h10]; norm_num
  have e89 : ((n : ℚ) / 10 ≤ 8.9) ↔ n ≤ 89 := by
    rw [div_le_iff₀ h10]; norm_num
  have e90 : ((9.0 : ℚ) ≤ (n : ℚ) / 10) ↔ 90 ≤ n := by
    rw [le_div_iff₀ h10]; norm_num
  have e100 : ((n : ℚ) / 10 ≤ 10.0) ↔ n ≤ 100 := by
    rw [div_le_iff₀ h10]; norm_num
  constructor
  · simp only [severity_from_score, spec_severity_table, e0, e1, e39, e40, e69, e70, e89, e90, e100]
    split_ifs <;> first | rfl | omega
  · simp only [spec_severity_table, e0, e1, e39, e40, e69, e70, e89, e90, e100]
    split_ifs <;> first | decide | omega

/-- Claim C3: for every input mapping of strings to strings,
`compute_base_score` returns a base score in `[0.0, 10.0]` that is exact
to one decimal place (it equals `n / 10` for some natural `n ≤ 100`), and
the returned severity is the unique label of the boundary table containing
that score (`0.0 -> None`, `0.1-3.9 -> Low`, `4.0-6.9 -> Medium`,
`7.0-8.9 -> High`, `9.0-10.0 -> Critical`). -/
theorem C3_score_range_decimal_severity (metrics : List (String × String)) :
    ∃ n : ℕ, n ≤ 100 ∧ (calculate_base_score metrics).1 = (n : ℚ) / 10 ∧
      (calculate_base_score metrics).2.1 = spec_severity_table ((calculate_base_score metrics).1) ∧
      spec_severity_table ((calculate_base_score metrics).1) ≠ "undefined" := by
  obtain ⟨n, hn, he⟩ :=
    base_score_num_shape (av_weight (mget (normalized metrics) "AV"))
      (ac_weight (mget (normalized metrics) "AC"))
      (pr_weight (resolve_scope (mget (normalized metrics) "S")) (mget (normalized metrics) "PR"))
      (ui_weight (mget (normalized metrics) "UI"))
      (impact_weight (mget (normalized metrics) "C"))
      (impact_weight (mget (normalized metrics) "I"))
      (impact_weight (mget (normalized metrics) "A"))
      (decide (resolve_scope (mget (normalized metrics) "S") = "C"))
      (av_weight_pos _) (ac_weight_pos _) (pr_weight_pos _ _) (ui_weight_pos _)
      (impact_weight_cases _) (impact_weight_cases _) (impact_weight_cases _)
  refine ⟨n, hn, ?_, ?_, ?_⟩
  · rw [calc_fst]; exact he
  · rw [calc_snd, calc_fst, he]; exact (severity_eq_table n hn).1
  · rw [calc_fst, he]; exact (severity_eq_table n hn).2

/-- Claim C5: whenever the three impact metrics C, I, A all resolve to
impact weight `0` (in particular when all three are `"N"`, and when the
input mapping is empty), the base score is `0.0` and the severity is
`"None"`, for any values of the remaining metrics. -/
theorem C5_zero_impact_zero_score (metrics : List (String × String))
    (hC : impact_weight (mget (normalized metrics) "C") = 0)
    (hI : impact_weight (mget (normalized metrics) "I") = 0)
    (hA : impact_weight (mget (normalized metrics) "A") = 0) :
    (calculate_base_score metrics).1 = 0 ∧ (calculate_base_score metrics).2.1 = "None" := by
  have hz : (calculate_base_score metrics).1 = 0 := by
    rw [calc_fst, hC, hI, hA]
    exact base_score_num_eq_zero _ _ _ _ 0 0 0 _ (by norm_num)
  refine ⟨hz, ?_⟩
  rw [calc_snd, hz]
  simp [severity_from_score]

/-- Concrete witness for C5: the empty mapping (all defaults `C=I=A=N`). -/
theorem C5_zero_impact_zero_score_witness :
    impact_weight (mget (normalized []) "C") = 0 ∧
      (calculate_base_score []).1 = 0 ∧ (calculate_base_score []).2.1 = "None" := by
  have hC : impact_weight (mget (normalized []) "C") = 0 := by
    rw [show mget (normalized []) "C" = "N" from by decide]
    norm_num [impact_weight]
  have hI : impact_weight (mget (normalized []) "I") = 0 := by
    rw [show mget (normalized []) "I" = "N" from by decide]
    norm_num [impact_weight]
  have hA : impact_weight (mget (normalized []) "A") = 0 := by
    rw [show mget (normalized []) "A" = "N" from by decide]
    norm_num [impact_weight]
  exact ⟨hC, C5_zero_impact_zero_score [] hC hI hA⟩

/-! ### Claim C6: totality and default weights -/

/-- Claim C6: `compute_base_score` is total on string-valued inputs (it
always returns a result triple), and any value outside a metric's legal
set resolves to that metric's numeric default weight (`AV -> 0.55`,
`AC -> 0.44`, `PR -> 0.85`, `UI -> 0.85`, `C/I/A -> 0.0`), with Scope
treated as `"U"` whenever its value is not exactly `"U"` or `"C"`. -/

theorem C6_total_and_default_weights :
    (∀ metrics : List (String × String), ∃ r : ℚ × String × String, calculate_base_score metrics = r) ∧
    (∀ v : String, v ≠ "N" → v ≠ "A" → v ≠ "L" → v ≠ "P" → av_weight v = 0.55) ∧
    (∀ v : String, v ≠ "L" → v ≠ "H" → ac_weight v = 0.44) ∧
    (∀ s v : String, v ≠ "N" → v ≠ "L" → v ≠ "H" → pr_weight s v = 0.85) ∧
    (∀ v : String, v ≠ "N" → v ≠ "R" → ui_weight v = 0.85) ∧
    (∀ v : String, v ≠ "N" → v ≠ "L" → v ≠ "H" → impact_weight v = 0) ∧
    (∀ s : String, s ≠ "U" → s ≠ "C" → resolve_scope s = "U") := by
  refine ⟨fun m => ⟨_, rfl⟩, ?_, ?_, ?_, ?_, ?_, ?_⟩ <;> intros <;>
    simp_all [av_weight, ac_weight, pr_weight, ui_weight, impact_weight, resolve_scope]

/-- Concrete witness for C6 at the illegal value `"X"`. -/
theorem C6_total_and_default_weights_witness :
    av_weight "X" = 0.55 ∧ ac_weight "X" = 0.44 ∧ pr_weight "U" "X" = 0.85 ∧
      ui_weight "X" = 0.85 ∧ impact_weight "X" = 0 ∧ resolve_scope "X" = "U" :=
  ⟨C6_total_and_default_weights.2.1 "X" (by decide) (by decide) (by decide) (by decide),
   C6_total_and_default_weights.2.2.1 "X" (by decide) (by decide),
   C6_total_and_default_weights.2.2.2.1 "U" "X" (by decide) (by decide) (by decide),
   C6_total_and_default_weights.2.2.2.2.1 "X" (by decide) (by decide),
   C6_total_and_default_weights.2.2.2.2.2.1 "X" (by decide) (by decide) (by decide),
   C6_total_and_default_weights.2.2.2.2.2.2 "X" (by decide) (by decide)⟩

/-! ### Claim C10: an empty-string value behaves as an omitted key -/

/-- Claim C10: supplying the empty string as any key's value makes
`compute_base_score` behave exactly as if that key were omitted — the
whole result triple (score, severity and vector) is unchanged. -/

theorem C10_empty_value_is_omission (l1 l2 : List (String × String)) (k : String) :
    calculate_base_score (l1 ++ [(k, "")] ++ l2) = calculate_base_score (l1 ++ l2) := by
  have h : normFiltered (l1 ++ [(k, "")] ++ l2) = normFiltered (l1 ++ l2) := by
    unfold normFiltered
    rw [List.foldl_append, List.foldl_append, List.foldl_append, List.foldl_cons, List.foldl_nil]
    simp
  unfold calculate_base_score normalized
  rw [h]

/-! ### Concrete evaluation of the all-high changed-scope input -/

/-- The input of the specification's Critical scenario. -/

lemma crit_score : (calculate_base_score critInput).1 = 10 := by
  rw [calc_fst]
  rw [show mget (normalized critInput) "AV" = "N" from by decide,
    show mget (normalized critInput) "AC" = "L" from by decide,
    show mget (normalized critInput) "PR" = "N" from by decide,
    show mget (normalized critInput) "UI" = "N" from by decide,
    show mget (normalized critInput) "C" = "H" from by decide,
    show mget (normalized critInput) "I" = "H" from by decide,
    show mget (normalized critInput) "A" = "H" from by decide,
    show resolve_scope (mget (normalized critInput) "S") = "C" from by decide]
  rw [show av_weight "N" = 0.85 from by norm_num [av_weight],
    show ac_weight "L" = 0.77 from by norm_num [ac_weight],
    show pr_weight "C" "N" = 0.85 from by norm_num [pr_weight],
    show ui_weight "N" = 0.85 from by norm_num [ui_weight],
    show impact_weight "H" = 0.56 from by
      unfold impact_weight; rw [if_neg (by decide), if_neg (by decide), if_pos rfl],
    show decide ("C" = "C") = true from by decide]
  rw [base_score_num_eq_round 0.85 0.77 0.85 0.85 0.56 0.56 0.56 true (by norm_num)]
  rw [if_pos rfl, if_pos rfl]
  rw [min_eq_right (by norm_num)]
  unfold round_up
  rw [show ((10 : ℚ) * 10) = 100 from by norm_num]
  rw [show ⌈(100 : ℚ)⌉ = 100 from by rw [Int.ceil_eq_iff] <;> norm_num]
  norm_num

lemma crit_severity : (calculate_base_score critInput).2.1 = "Critical" := by
  rw [calc_snd, crit_score]
  norm_num [severity_from_score]

/-- Claim C7: for the all-high changed-scope input, `compute_base_score`
returns the vector exactly `CVSS:3.1/AV:N/AC:L/PR:N/UI:N/S:C/C:H/I:H/A:H`
and the severity `Critical`. -/
theorem C7_critical_scenario :
    (calculate_base_score critInput).2.1 = "Critical" ∧
      (calculate_base_score critInput).2.2 = "CVSS:3.1/AV:N/AC:L/PR:N/UI:N/S:C/C:H/I:H/A:H" :=
  ⟨crit_severity, by decide⟩

/-! ### Uppercasing is idempotent -/

lemma toUpper_idem (c : Char) : Char.toUpper (Char.toUpper c) = Char.toUpper c := by
  by_cases h : c.toNat ≥ 97 ∧ c.toNat ≤ 122
  · have h1 : Char.toUpper c = Char.ofNat (c.toNat - 32) := by
      simp only [Char.toUpper]
      rw [if_pos h]
    have hv : (c.toNat - 32).isValidChar := Or.inl (by omega)
    have ht : (Char.ofNat (c.toNat - 32)).toNat = c.toNat - 32 := by
      rw [Char.ofNat, dif_pos hv]
      rfl
    rw [h1]
    simp only [Char.toUpper]
    rw [ht, if_neg (by omega)]
  · have h1 : Char.toUpper c = c := by
      simp only [Char.toUpper]
      rw [if_neg h]
    rw [h1, h1]

lemma pyUpper_idem (s : String) : pyUpper (pyUpper s) = pyUpper s := by
  unfold pyUpper
  simp [List.map_map, Function.comp_def, toUpper_idem]

/-! ### Clean dicts: uppercase keys and values, no duplicate keys -/

/-- A dict whose keys and values are fixed by uppercasing and whose keys
are pairwise distinct; `normalized` always produces such a dict. -/

lemma mem_dictInsert (d : List (String × String)) (k v : String) (p : String × String) :
    p ∈ dictInsert d k v → p = (k, v) ∨ p ∈ d := by
  induction d with
  | nil =>
    intro h
    simpa [dictInsert] using h
  | cons q t ih =>
    intro h
    by_cases hq : q.1 = k
    · rw [show dictInsert (q :: t) k v = (k, v) :: t from by
        obtain ⟨a, b⟩ := q; simp_all [dictInsert]] at h
      rcases List.mem_cons.mp h with h | h
      · exact Or.inl h
      · exact Or.inr (List.mem_cons_of_mem _ h)
    · rw [show dictInsert (q :: t) k v = q :: dictInsert t k v from by
        obtain ⟨a, b⟩ := q; simp_all [dictInsert]] at h
      rcases List.mem_cons.mp h with h | h
      · exact Or.inr (h ▸ List.mem_cons_self _ _)
      · rcases ih h with h' | h'
        · exact Or.inl h'
        · exact Or.inr (List.mem_cons_of_mem _ h')

lemma lookup_none_iff (d : List (String × String)) (k : String) :
    List.lookup k d = none ↔ k ∉ d.map Prod.fst := by
  induction d with
  | nil => simp
  | cons p t ih =>
    obtain ⟨a, b⟩ := p
    rw [lookup_cons_pair]
    by_cases h : k = a <;> simp [h, ih]

lemma keys_dictInsert (d : List (String × String)) (k v : String) :
    (dictInsert d k v).map Prod.fst =
      if (List.lookup k d).isSome then d.map Prod.fst else d.map Prod.fst ++ [k] := by
  induction d with
  | nil => simp [dictInsert]
  | cons p t ih =>
    obtain ⟨a, b⟩ := p
    by_cases h : a = k
    · subst h
      have : dictInsert ((a, b) :: t) a v = (a, v) :: t := by simp [dictInsert]
      rw [this, lookup_cons_pair, if_pos rfl]
      simp
    · have : dictInsert ((a, b) :: t) k v = (a, b) :: dictInsert t k v := by
        simp [dictInsert, h]
      rw [this, lookup_cons_pair, if_neg (show ¬ k = a from fun hh => h hh.symm)]
      simp only [List.map_cons, ih]
      split <;> simp

lemma clean_dictInsert (d : List (String × String)) (k v : String)
    (h : cleanDict d) (hk : pyUpper k = k) (hv : pyUpper v = v) :
    cleanDict (dictInsert d k v) := by
  obtain ⟨hup, hnd⟩ := h
  constructor
  · intro p hp
    rcases mem_dictInsert d k v p hp with rfl | hp'
    · exact ⟨hk, hv⟩
    · exact hup p hp'
  · rw [keys_dictInsert]
    split
    · exact hnd
    · rename_i hnone
      rw [Option.not_isSome_iff_eq_none, lookup_none_iff] at hnone
      rw [List.nodup_append_comm]
      exact List.nodup_cons.mpr ⟨hnone, hnd⟩

lemma clean_normFiltered (m : List (String × String)) : cleanDict (normFiltered m) := by
  unfold normFiltered
  have : ∀ acc : List (String × String), cleanDict acc →
      cleanDict (m.foldl (fun d kv => if kv.2 = "" then d else dictInsert d (pyUpper kv.1) (pyUpper kv.2)) acc) := by
    induction m with
    | nil => exact fun acc h => h
    | cons kv t ih =>
      intro acc hacc
      rw [List.foldl_cons]
      apply ih
      by_cases he : kv.2 = ""
      · rwa [if_pos he]
      · rw [if_neg he]
        exact clean_dictInsert _ _ _ hacc (pyUpper_idem _) (pyUpper_idem _)
  exact this [] ⟨by simp, by simp⟩

lemma keys_setdefault (d : List (String × String)) (k v : String) :
    (setdefault d k v).map Prod.fst =
      if (List.lookup k d).isSome then d.map Prod.fst else d.map Prod.fst ++ [k] := by
  unfold setdefault hasKey
  split <;> simp

lemma mem_setdefault (d : List (String × String)) (k v : String) (p : String × String)
    (h : p ∈ setdefault d k v) : p = (k, v) ∨ p ∈ d := by
  unfold setdefault at h
  split at h
  · exact Or.inr h
  · rcases List.mem_append.mp h with h' | h'
    · exact Or.inr h'
    · simp at h'
      exact Or.inl (by simp [h'])

lemma clean_setdefault (d : List (String × String)) (k v : String)
    (h : cleanDict d) (hk : pyUpper k = k) (hv : pyUpper v = v) :
    cleanDict (setdefault d k v) := by
  obtain ⟨hup, hnd⟩ := h
  constructor
  · intro p hp
    rcases mem_setdefault d k v p hp with rfl | hp'
    · exact ⟨hk, hv⟩
    · exact hup p hp'
  · rw [keys_setdefault]
    split
    · exact hnd
    · rename_i hnone
      rw [Option.not_isSome_iff_eq_none, lookup_none_iff] at hnone
      rw [List.nodup_append_comm]
      exact List.nodup_cons.mpr ⟨hnone, hnd⟩

lemma clean_normalized (m : List (String × String)) : cleanDict (normalized m) := by
  unfold normalized withDefaults
  have h0 := clean_normFiltered m
  refine clean_setdefault _ _ _ (clean_setdefault _ _ _ (clean_setdefault _ _ _
    (clean_setdefault _ _ _ (clean_setdefault _ _ _ (clean_setdefault _ _ _
      (clean_setdefault _ _ _ (clean_setdefault _ _ _ h0 ?_ ?_) ?_ ?_) ?_ ?_) ?_ ?_) ?_ ?_)
        ?_ ?_) ?_ ?_) ?_ ?_ <;> decide

/-! ### Looking keys up in the `build_vector` merge -/

lemma lookup_merge_notmem (t : List (String × String)) (acc : List (String × String)) (k : String)
    (h : ∀ p ∈ t, pyUpper p.1 ≠ k) :
    List.lookup k (t.foldl (fun d kv => dictInsert d (pyUpper kv.1) (pyUpper kv.2)) acc) =
      List.lookup k acc := by
  induction t generalizing acc with
  | nil => rfl
  | cons kv t ih =>
    rw [List.foldl_cons, ih _ (fun p hp => h p (List.mem_cons_of_mem _ hp))]
    rw [lookup_dictInsert, if_neg (fun hh => h kv (List.mem_cons_self _ _) hh.symm)]

lemma lookup_merge_clean (d : List (String × String)) :
    ∀ (acc : List (String × String)) (k v : String), cleanDict d → List.lookup k d = some v →
      List.lookup k (d.foldl (fun d kv => dictInsert d (pyUpper kv.1) (pyUpper kv.2)) acc) =
        some (pyUpper v) := by
  induction d with
  | nil =>
    intro acc k v _ hk
    simp at hk
  | cons q t ih =>
    intro acc k v hclean hk
    obtain ⟨a, b⟩ := q
    obtain ⟨hup, hnd⟩ := hclean
    have hndc : a ∉ t.map Prod.fst ∧ (t.map Prod.fst).Nodup :=
      List.nodup_cons.mp (by simpa using hnd)
    rw [List.foldl_cons]
    rw [lookup_cons_pair] at hk
    by_cases hka : k = a
    · rw [if_pos hka] at hk
      injection hk with hbv
      have htail : ∀ p ∈ t, pyUpper p.1 ≠ k := by
        intro p hp hcontra
        have hkeys : p.1 ∈ t.map Prod.fst := List.mem_map_of_mem Prod.fst hp
        rw [(hup p (List.mem_cons_of_mem _ hp)).1] at hcontra
        rw [hcontra, hka] at hkeys
        exact hndc.1 hkeys
      rw [lookup_merge_notmem t _ k htail]
      rw [lookup_dictInsert]
      rw [(hup (a, b) (List.mem_cons_self _ _)).1, if_pos hka, hbv]
    · rw [if_neg hka] at hk
      exact ih _ k v ⟨fun p hp => hup p (List.mem_cons_of_mem _ hp), hndc.2⟩ hk

lemma lookup_mem (d : List (String × String)) :
    ∀ (k v : String), List.lookup k d = some v → (k, v) ∈ d := by
  induction d with
  | nil =>
    intro k v hk
    simp at hk
  | cons q t ih =>
    intro k v hk
    obtain ⟨a, b⟩ := q
    rw [lookup_cons_pair] at hk
    by_cases hka : k = a
    · rw [if_pos hka] at hk
      injection hk with hbv
      subst hka
      subst hbv
      exact List.mem_cons_self _ _
    · rw [if_neg hka] at hk
      exact List.mem_cons_of_mem _ (ih k v hk)

lemma lookup_setdefault_ne (d : List (String × String)) (k v k' : String) (h : k' ≠ k) :
    List.lookup k' (setdefault d k v) = List.lookup k' d := by
  rw [lookup_setdefault, if_neg h]

lemma lookup_setdefault_eq (d : List (String × String)) (k v : String) :
    List.lookup k (setdefault d k v) = some ((List.lookup k d).getD v) := by
  rw [lookup_setdefault, if_pos rfl]

lemma lookup_withDefaults_S (d : List (String × String)) :
    List.lookup "S" (withDefaults d) = some ((List.lookup "S" d).getD "U") := by
  unfold withDefaults
  rw [lookup_setdefault_ne _ _ _ _ (by decide), lookup_setdefault_ne _ _ _ _ (by decide),
    lookup_setdefault_ne _ _ _ _ (by decide), lookup_setdefault_eq,
    lookup_setdefault_ne _ _ _ _ (by decide), lookup_setdefault_ne _ _ _ _ (by decide),
    lookup_setdefault_ne _ _ _ _ (by decide), lookup_setdefault_ne _ _ _ _ (by decide)]

/-- The stored scope value of a normalized dict is fixed by uppercasing. -/
lemma normalized_S_upper (metrics : List (String × String)) :
    pyUpper (mget (normalized metrics) "S") = mget (normalized metrics) "S" := by
  have hlk : List.lookup "S" (normalized metrics) =
      some ((List.lookup "S" (normFiltered metrics)).getD "U") := lookup_withDefaults_S _
  have hm : mget (normalized metrics) "S" = (List.lookup "S" (normFiltered metrics)).getD "U" := by
    unfold mget
    rw [hlk]
    rfl
  have hmem := lookup_mem (normalized metrics) "S" _ hlk
  have hval := ((clean_normalized metrics).1 _ hmem).2
  rw [hm]
  exact hval

lemma build_vector_parts (metrics : List (String × String)) :
    build_vector metrics =
      "CVSS:3.1" ++ "/" ++ ("AV:" ++ mget (vector_merge metrics) "AV") ++ "/" ++
        ("AC:" ++ mget (vector_merge metrics) "AC") ++ "/" ++
        ("PR:" ++ mget (vector_merge metrics) "PR") ++ "/" ++
        ("UI:" ++ mget (vector_merge metrics) "UI") ++ "/" ++
        ("S:" ++ mget (vector_merge metrics) "S") ++ "/" ++
        ("C:" ++ mget (vector_merge metrics) "C") ++ "/" ++
        ("I:" ++ mget (vector_merge metrics) "I") ++ "/" ++
        ("A:" ++ mget (vector_merge metrics) "A") := by
  unfold build_vector
  simp [String.intercalate, String.intercalate.go, String.append_assoc]

lemma normFiltered_append_SU (metrics : List (String × String)) :
    normFiltered (metrics ++ [("S", "U")]) = dictInsert (normFiltered metrics) "S" "U" := by
  unfold normFiltered
  rw [List.foldl_append]
  simp only [List.foldl_cons, List.foldl_nil]
  rw [if_neg (by decide), show pyUpper "S" = "S" from by decide,
    show pyUpper "U" = "U" from by decide]

/-- Claim C9: for every input whose normalized S value is neither `"U"`
nor `"C"`, the base score and severity equal those of the same input with
S overridden to `"U"` (the score-side normalization treats the scope as
unchanged), yet the returned vector string still renders the stored
(uppercased, illegal) S value as its `S:` segment. -/
theorem C9_illegal_scope_normalized_in_score_not_vector (metrics : List (String × String))
    (h1 : mget (normalized metrics) "S" ≠ "U") (h2 : mget (normalized metrics) "S" ≠ "C") :
    (calculate_base_score metrics).1 = (calculate_base_score (metrics ++ [("S", "U")])).1 ∧
    (calculate_base_score metrics).2.1 = (calculate_base_score (metrics ++ [("S", "U")])).2.1 ∧
    ∃ pre post : String,
      (calculate_base_score metrics).2.2 = pre ++ ("S:" ++ mget (normalized metrics) "S") ++ post := by
  have hAV : mget (normalized (metrics ++ [("S", "U")])) "AV" = mget (normalized metrics) "AV" := by
    unfold normalized
    rw [normFiltered_append_SU, mget_withDefaults_AV, mget_withDefaults_AV,
      lookup_dictInsert, if_neg (by decide)]
  have hAC : mget (normalized (metrics ++ [("S", "U")])) "AC" = mget (normalized metrics) "AC" := by
    unfold normalized
    rw [normFiltered_append_SU, mget_withDefaults_AC, mget_withDefaults_AC,
      lookup_dictInsert, if_neg (by decide)]
  have hPR : mget (normalized (metrics ++ [("S", "U")])) "PR" = mget (normalized metrics) "PR" := by
    unfold normalized
    rw [normFiltered_append_SU, mget_withDefaults_PR, mget_withDefaults_PR,
      lookup_dictInsert, if_neg (by decide)]
  have hUI : mget (normalized (metrics ++ [("S", "U")])) "UI" = mget (normalized metrics) "UI" := by
    unfold normalized
    rw [normFiltered_append_SU, mget_withDefaults_UI, mget_withDefaults_UI,
      lookup_dictInsert, if_neg (by decide)]
  have hC : mget (normalized (metrics ++ [("S", "U")])) "C" = mget (normalized metrics) "C" := by
    unfold normalized
    rw [normFiltered_append_SU, mget_withDefaults_C, mget_withDefaults_C,
      lookup_dictInsert, if_neg (by decide)]
  have hI : mget (normalized (metrics ++ [("S", "U")])) "I" = mget (normalized metrics) "I" := by
    unfold normalized
    rw [normFiltered_append_SU, mget_withDefaults_I, mget_withDefaults_I,
      lookup_dictInsert, if_neg (by decide)]
  have hA : mget (normalized (metrics ++ [("S", "U")])) "A" = mget (normalized metrics) "A" := by
    unfold normalized
    rw [normFiltered_append_SU, mget_withDefaults_A, mget_withDefaults_A,
      lookup_dictInsert, if_neg (by decide)]
  have hS : mget (normalized (metrics ++ [("S", "U")])) "S" = "U" := by
    unfold normalized
    rw [normFiltered_append_SU, mget_withDefaults_S, lookup_dictInsert, if_pos rfl]
    rfl
  have hsc1 : resolve_scope (mget (normalized metrics) "S") = "U" := by
    unfold resolve_scope
    rw [if_neg (not_or.mpr ⟨h1, h2⟩)]
  have hsc2 : resolve_scope "U" = "U" := by decide
  have hscore : (calculate_base_score metrics).1 = (calculate_base_score (metrics ++ [("S", "U")])).1 := by
    rw [calc_fst, calc_fst, hAV, hAC, hPR, hUI, hC, hI, hA, hS, hsc1, hsc2]
  refine ⟨hscore, ?_, ?_⟩
  · rw [calc_snd, calc_snd, hscore]
  · have hlk2 : List.lookup "S" (normalized metrics) = some (mget (normalized metrics) "S") := by
      have hm : mget (normalized metrics) "S" = (List.lookup "S" (normFiltered metrics)).getD "U" := by
        unfold mget normalized
        rw [lookup_withDefaults_S]
        rfl
      rw [hm]
      unfold normalized
      exact lookup_withDefaults_S _
    have hx : List.lookup "S" (vector_merge (normalized metrics)) =
        some (pyUpper (mget (normalized metrics) "S")) := by
      unfold vector_merge
      exact lookup_merge_clean _ _ _ _ (clean_normalized metrics) hlk2
    have hSm : mget (vector_merge (normalized metrics)) "S" = mget (normalized metrics) "S" := by
      rw [show mget (vector_merge (normalized metrics)) "S" =
        (List.lookup "S" (vector_merge (normalized metrics))).getD "" from rfl]
      rw [hx, normalized_S_upper]
      rfl
    refine ⟨"CVSS:3.1" ++ "/" ++ ("AV:" ++ mget (vector_merge (normalized metrics)) "AV") ++ "/" ++
        ("AC:" ++ mget (vector_merge (normalized metrics)) "AC") ++ "/" ++
        ("PR:" ++ mget (vector_merge (normalized metrics)) "PR") ++ "/" ++
        ("UI:" ++ mget (vector_merge (normalized metrics)) "UI") ++ "/",
      "/" ++ ("C:" ++ mget (vector_merge (normalized metrics)) "C") ++ "/" ++
        ("I:" ++ mget (vector_merge (normalized metrics)) "I") ++ "/" ++
        ("A:" ++ mget (vector_merge (normalized metrics)) "A"), ?_⟩
    rw [calc_vec, build_vector_parts, hSm]
    apply String.ext
    simp [List.append_assoc]

/-- Concrete witness for C9 at the input `{"S": "X"}`. -/
theorem C9_illegal_scope_witness :
    mget (normalized [("S", "X")]) "S" ≠ "U" ∧
      (calculate_base_score [("S", "X")]).1 = (calculate_base_score ([("S", "X")] ++ [("S", "U")])).1 := by
  have h1 : mget (normalized [("S", "X")]) "S" ≠ "U" := by decide
  have h2 : mget (normalized [("S", "X")]) "S" ≠ "C" := by decide
  exact ⟨h1, (C9_illegal_scope_normalized_in_score_not_vector [("S", "X")] h1 h2).1⟩

/-! ### Characterizing what `detect_cvss_metrics` returns -/

lemma lookup_cons_poly {β : Type} (k a : String) (b : β) (t : List (String × β)) :
    List.lookup k ((a, b) :: t) = if k = a then some b else List.lookup k t := by
  by_cases h : k = a
  · subst h; simp [List.lookup_cons]
  · simp [List.lookup_cons, beq_false_of_ne h, h]

lemma lookup_mem_poly {β : Type} (d : List (String × β)) :
    ∀ (k : String) (v : β), List.lookup k d = some v → (k, v) ∈ d := by
  induction d with
  | nil =>
    intro k v hk
    simp at hk
  | cons q t ih =>
    intro k v hk
    obtain ⟨a, b⟩ := q
    rw [lookup_cons_poly] at hk
    by_cases hka : k = a
    · rw [if_pos hka] at hk
      injection hk with hbv
      subst hka
      subst hbv
      exact List.mem_cons_self _ _
    · rw [if_neg hka] at hk
      exact List.mem_cons_of_mem _ (ih k v hk)

lemma detectValue_eq_find (t : List Char) (values : List (String × List (List String))) :
    ∀ prio : List String, (∀ v ∈ prio, (values.lookup v).isSome) →
      detectValue t values prio =
        prio.find? (fun v => ((values.lookup v).getD []).any (fun p => patSearch p t)) := by
  intro prio
  induction prio with
  | nil => intro _; rfl
  | cons v rest ih =>
    intro h
    unfold detectValue
    cases hl : values.lookup v with
    | none =>
      exfalso
      have := h v (List.mem_cons_self _ _)
      rw [hl] at this
      simp at this
    | some pats =>
      dsimp only
      by_cases hp : pats.any (fun p => patSearch p t) = true
      · rw [if_pos hp]
        rw [List.find?_cons_of_pos _ (by rw [hl]; simpa using hp)]
      · rw [if_neg hp]
        rw [List.find?_cons_of_neg _ (by rw [hl]; simpa using hp)]
        exact ih (fun w hw => h w (List.mem_cons_of_mem _ hw))

lemma detectValue_none_of_no_match (t : List Char) (values : List (String × List (List String)))
    (hall : ∀ vp ∈ values, vp.2.any (fun p => patSearch p t) = false) :
    ∀ prio, detectValue t values prio = none := by
  intro prio
  induction prio with
  | nil => rfl
  | cons v rest ih =>
    unfold detectValue
    cases hl : values.lookup v with
    | none => exact ih
    | some pats =>
      dsimp only
      have hmem := lookup_mem_poly values v pats hl
      rw [if_neg (by rw [hall (v, pats) hmem]; simp)]
      exact ih

lemma lookup_detect_step_ne (t : List Char) (acc : List (String × String))
    (mp : String × List (String × List (List String))) (m : String) (h : mp.1 ≠ m) :
    List.lookup m (detect_step t acc mp) = List.lookup m acc := by
  unfold detect_step
  cases detectValue t mp.2 (priority_order mp.1) with
  | none => rfl
  | some v =>
    rw [lookup_append, lookup_cons_pair, if_neg (fun hh => h hh.symm)]
    simp

lemma lookup_detect_step_self (t : List Char) (acc : List (String × String))
    (k : String) (values : List (String × List (List String)))
    (h : List.lookup k acc = none) :
    List.lookup k (detect_step t acc (k, values)) = detectValue t values (priority_order k) := by
  unfold detect_step
  dsimp only
  cases detectValue t values (priority_order k) with
  | none => exact h
  | some v =>
    rw [lookup_append, h, lookup_cons_pair, if_pos rfl]
    rfl

lemma lookup_detect_fold_ne (t : List Char) (m : String) :
    ∀ (tbl : List (String × List (String × List (List String))))
      (acc : List (String × String)), (∀ mp ∈ tbl, mp.1 ≠ m) →
      List.lookup m (tbl.foldl (detect_step t) acc) = List.lookup m acc := by
  intro tbl
  induction tbl with
  | nil => intro acc _; rfl
  | cons mp rest ih =>
    intro acc h
    rw [List.foldl_cons, ih _ (fun q hq => h q (List.mem_cons_of_mem _ hq)),
      lookup_detect_step_ne _ _ _ _ (h mp (List.mem_cons_self _ _))]

/-- Claim C2: for every input text and every metric, inference evaluates
candidate values in the fixed priority order (AV: N,A,L,P; AC: L,H;
PR: N,L,H; UI: N,R; S: U,C; C/I/A: H,L,N) and assigns the first candidate
value any of whose patterns matches the lowercased text — the entry for a
metric in the returned mapping is exactly `List.find?` over that priority
order, so a text matching several candidates gets the earliest in priority
order, not the candidate with the most matches. -/
theorem C2_priority_first_match (text : String) (m : String)
    (hm : m ∈ ["AV", "AC", "PR", "UI", "S", "C", "I", "A"]) :
    List.lookup m (detect_cvss_metrics text) =
        (priority_order m).find? (fun v => value_matched text m v) ∧
      priority_order "AV" = ["N", "A", "L", "P"] ∧ priority_order "AC" = ["L", "H"] ∧
      priority_order "PR" = ["N", "L", "H"] ∧ priority_order "UI" = ["N", "R"] ∧
      priority_order "S" = ["U", "C"] ∧ priority_order "C" = ["H", "L", "N"] ∧
      priority_order "I" = ["H", "L", "N"] ∧ priority_order "A" = ["H", "L", "N"] := by
  refine ⟨?_, by decide, by decide, by decide, by decide, by decide, by decide, by decide, by decide⟩
  simp only [List.mem_cons, List.not_mem_nil, or_false] at hm
  rcases hm with rfl | rfl | rfl | rfl | rfl | rfl | rfl | rfl
  · unfold detect_cvss_metrics cvss_patterns
    rw [List.foldl_cons, List.foldl_cons, List.foldl_cons, List.foldl_cons, List.foldl_cons,
      List.foldl_cons, List.foldl_cons, List.foldl_cons, List.foldl_nil]
    rw [lookup_detect_step_ne _ _ _ _ (by decide)]
    rw [lookup_detect_step_ne _ _ _ _ (by decide)]
    rw [lookup_detect_step_ne _ _ _ _ (by decide)]
    rw [lookup_detect_step_ne _ _ _ _ (by decide)]
    rw [lookup_detect_step_ne _ _ _ _ (by decide)]
    rw [lookup_detect_step_ne _ _ _ _ (by decide)]
    rw [lookup_detect_step_ne _ _ _ _ (by decide)]
    rw [lookup_detect_step_self _ _ _ _ (by rfl)]
    rw [detectValue_eq_find _ _ _ (by decide)]
    rfl
  · unfold detect_cvss_metrics cvss_patterns
    rw [List.foldl_cons, List.foldl_cons, List.foldl_cons, List.foldl_cons, List.foldl_cons,
      List.foldl_cons, List.foldl_cons, List.foldl_cons, List.foldl_nil]
    rw [lookup_detect_step_ne _ _ _ _ (by decide)]
    rw [lookup_detect_step_ne _ _ _ _ (by decide)]
    rw [lookup_detect_step_ne _ _ _ _ (by decide)]
    rw [lookup_detect_step_ne _ _ _ _ (by decide)]
    rw [lookup_detect_step_ne _ _ _ _ (by decide)]
    rw [lookup_detect_step_ne _ _ _ _ (by decide)]
    rw [lookup_detect_step_self _ _ _ _ (by rw [lookup_detect_step_ne _ _ _ _ (by decide)]; rfl)]
    rw [detectValue_eq_find _ _ _ (by decide)]
    rfl
  · unfold detect_cvss_metrics cvss_patterns
    rw [List.foldl_cons, List.foldl_cons, List.foldl_cons, List.foldl_cons, List.foldl_cons,
      List.foldl_cons, List.foldl_cons, List.foldl_cons, List.foldl_nil]
    rw [lookup_detect_step_ne _ _ _ _ (by decide)]
    rw [lookup_detect_step_ne _ _ _ _ (by decide)]
    rw [lookup_detect_step_ne _ _ _ _ (by decide)]
    rw [lookup_detect_step_ne _ _ _ _ (by decide)]
    rw [lookup_detect_step_ne _ _ _ _ (by decide)]
    rw [lookup_detect_step_self _ _ _ _ (by rw [lookup_detect_step_ne _ _ _ _ (by decide)]; rw [lookup_detect_step_ne _ _ _ _ (by decide)]; rfl)]
    rw [detectValue_eq_find _ _ _ (by decide)]
    rfl
  · unfold detect_cvss_metrics cvss_patterns
    rw [List.foldl_cons, List.foldl_cons, List.foldl_cons, List.foldl_cons, List.foldl_cons,
      List.foldl_cons, List.foldl_cons, List.foldl_cons, List.foldl_nil]
    rw [lookup_detect_step_ne _ _ _ _ (by decide)]
    rw [lookup_detect_step_ne _ _ _ _ (by decide)]
    rw [lookup_detect_step_ne _ _ _ _ (by decide)]
    rw [lookup_detect_step_ne _ _ _ _ (by decide)]
    rw [lookup_detect_step_self _ _ _ _ (by rw [lookup_detect_step_ne _ _ _ _ (by decide)]; rw [lookup_detect_step_ne _ _ _ _ (by decide)]; rw [lookup_detect_step_ne _ _ _ _ (by decide)]; rfl)]
    rw [detectValue_eq_find _ _ _ (by decide)]
    rfl
  · unfold detect_cvss_metrics cvss_patterns
    rw [List.foldl_cons, List.foldl_cons, List.foldl_cons, List.foldl_cons, List.foldl_cons,
      List.foldl_cons, List.foldl_cons, List.foldl_cons, List.foldl_nil]
    rw [lookup_detect_step_ne _ _ _ _ (by decide)]
    rw [lookup_detect_step_ne _ _ _ _ (by decide)]
    rw [lookup_detect_step_ne _ _ _ _ (by decide)]
    rw [lookup_detect_step_self _ _ _ _ (by rw [lookup_detect_step_ne _ _ _ _ (by decide)]; rw [lookup_detect_step_ne _ _ _ _ (by decide)]; rw [lookup_detect_step_ne _ _ _ _ (by decide)]; rw [lookup_detect_step_ne _ _ _ _ (by decide)]; rfl)]
    rw [detectValue_eq_find _ _ _ (by decide)]
    rfl
  · unfold detect_cvss_metrics cvss_patterns
    rw [List.foldl_cons, List.foldl_cons, List.foldl_cons, List.foldl_cons, List.foldl_cons,
      List.foldl_cons, List.foldl_cons, List.foldl_cons, List.foldl_nil]
    rw [lookup_detect_step_ne _ _ _ _ (by decide)]
    rw [lookup_detect_step_ne _ _ _ _ (by decide)]
    rw [lookup_detect_step_self _ _ _ _ (by rw [lookup_detect_step_ne _ _ _ _ (by decide)]; rw [lookup_detect_step_ne _ _ _ _ (by decide)]; rw [lookup_detect_step_ne _ _ _ _ (by decide)]; rw [lookup_detect_step_ne _ _ _ _ (by decide)]; rw [lookup_detect_step_ne _ _ _ _ (by decide)]; rfl)]
    rw [detectValue_eq_find _ _ _ (by decide)]
    rfl
  · unfold detect_cvss_metrics cvss_patterns
    rw [List.foldl_cons, List.foldl_cons, List.foldl_cons, List.foldl_cons, List.foldl_cons,
      List.foldl_cons, List.foldl_cons, List.foldl_cons, List.foldl_nil]
    rw [lookup_detect_step_ne _ _ _ _ (by decide)]
    rw [lookup_detect_step_self _ _ _ _ (by rw [lookup_detect_step_ne _ _ _ _ (by decide)]; rw [lookup_detect_step_ne _ _ _ _ (by decide)]; rw [lookup_detect_step_ne _ _ _ _ (by decide)]; rw [lookup_detect_step_ne _ _ _ _ (by decide)]; rw [lookup_detect_step_ne _ _ _ _ (by decide)]; rw [lookup_detect_step_ne _ _ _ _ (by decide)]; rfl)]
    rw [detectValue_eq_find _ _ _ (by decide)]
    rfl
  · unfold detect_cvss_metrics cvss_patterns
    rw [List.foldl_cons, List.foldl_cons, List.foldl_cons, List.foldl_cons, List.foldl_cons,
      List.foldl_cons, List.foldl_cons, List.foldl_cons, List.foldl_nil]
    rw [lookup_detect_step_self _ _ _ _ (by rw [lookup_detect_step_ne _ _ _ _ (by decide)]; rw [lookup_detect_step_ne _ _ _ _ (by decide)]; rw [lookup_detect_step_ne _ _ _ _ (by decide)]; rw [lookup_detect_step_ne _ _ _ _ (by decide)]; rw [lookup_detect_step_ne _ _ _ _ (by decide)]; rw [lookup_detect_step_ne _ _ _ _ (by decide)]; rw [lookup_detect_step_ne _ _ _ _ (by decide)]; rfl)]
    rw [detectValue_eq_find _ _ _ (by decide)]
    rfl

/-- Concrete witness for C2 at the metric `"AV"` and the text `"network"`. -/
theorem C2_priority_first_match_witness :
    List.lookup "AV" (detect_cvss_metrics "network") =
      (priority_order "AV").find? (fun v => value_matched "network" "AV" v) :=
  (C2_priority_first_match "network" "AV" (by decide)).1

/-- Claim C1, as stated, is false: on empty text no pattern matches, the
returned mapping is empty, and in particular AV is absent rather than
bound to the ScoreEngine default `"L"`. -/
theorem C1_counterexample_empty_text :
    detect_cvss_metrics "" = [] ∧
      List.lookup "AV" (detect_cvss_metrics "") = none ∧
      List.lookup "AV" (detect_cvss_metrics "") ≠ some "L" := by
  refine ⟨by decide, by decide, by decide⟩

/-- Claim C1 amended: a metric for which no candidate value's pattern
matches the lowercased text is absent from the mapping returned by the
inference operation (no default is inserted there; the ScoreEngine
defaults are applied only later, by `calculate_base_score`). -/
theorem C1_amended_unmatched_metric_absent (text : String) (m : String)
    (h0 : metric_matched text m = false) :
    List.lookup m (detect_cvss_metrics text) = none := by
  unfold metric_matched at h0
  rw [List.any_eq_false] at h0
  have h : ∀ vp ∈ (cvss_patterns.lookup m).getD [],
      ¬ (vp.2.any (fun p => patSearch p (pyLower text).data) = true) := h0
  by_cases hm : m ∈ ["AV", "AC", "PR", "UI", "S", "C", "I", "A"]
  · simp only [List.mem_cons, List.not_mem_nil, or_false] at hm
    rcases hm with rfl | rfl | rfl | rfl | rfl | rfl | rfl | rfl
    · unfold detect_cvss_metrics cvss_patterns
      rw [List.foldl_cons, List.foldl_cons, List.foldl_cons, List.foldl_cons, List.foldl_cons,
        List.foldl_cons, List.foldl_cons, List.foldl_cons, List.foldl_nil]
      rw [lookup_detect_step_ne _ _ _ _ (by decide)]
      rw [lookup_detect_step_ne _ _ _ _ (by decide)]
      rw [lookup_detect_step_ne _ _ _ _ (by decide)]
      rw [lookup_detect_step_ne _ _ _ _ (by decide)]
      rw [lookup_detect_step_ne _ _ _ _ (by decide)]
      rw [lookup_detect_step_ne _ _ _ _ (by decide)]
      rw [lookup_detect_step_ne _ _ _ _ (by decide)]
      rw [lookup_detect_step_self _ _ _ _ (by rfl)]
      exact detectValue_none_of_no_match _ _ (fun vp hvp => Bool.eq_false_iff.mpr (h vp hvp)) _
    · unfold detect_cvss_metrics cvss_patterns
      rw [List.foldl_cons, List.foldl_cons, List.foldl_cons, List.foldl_cons, List.foldl_cons,
        List.foldl_cons, List.foldl_cons, List.foldl_cons, List.foldl_nil]
      rw [lookup_detect_step_ne _ _ _ _ (by decide)]
      rw [lookup_detect_step_ne _ _ _ _ (by decide)]
      rw [lookup_detect_step_ne _ _ _ _ (by decide)]
      rw [lookup_detect_step_ne _ _ _ _ (by decide)]
      rw [lookup_detect_step_ne _ _ _ _ (by decide)]
      rw [lookup_detect_step_ne _ _ _ _ (by decide)]
      rw [lookup_detect_step_self _ _ _ _ (by rw [lookup_detect_step_ne _ _ _ _ (by decide)]; rfl)]
      exact detectValue_none_of_no_match _ _ (fun vp hvp => Bool.eq_false_iff.mpr (h vp hvp)) _
    · unfold detect_cvss_metrics cvss_patterns
      rw [List.foldl_cons, List.foldl_cons, List.foldl_cons, List.foldl_cons, List.foldl_cons,
        List.foldl_cons, List.foldl_cons, List.foldl_cons, List.foldl_nil]
      rw [lookup_detect_step_ne _ _ _ _ (by decide)]
      rw [lookup_detect_step_ne _ _ _ _ (by decide)]
      rw [lookup_detect_step_ne _ _ _ _ (by decide)]
      rw [lookup_detect_step_ne _ _ _ _ (by decide)]
      rw [lookup_detect_step_ne _ _ _ _ (by decide)]
      rw [lookup_detect_step_self _ _ _ _ (by rw [lookup_detect_step_ne _ _ _ _ (by decide)]; rw [lookup_detect_step_ne _ _ _ _ (by decide)]; rfl)]
      exact detectValue_none_of_no_match _ _ (fun vp hvp => Bool.eq_false_iff.mpr (h vp hvp)) _
    · unfold detect_cvss_metrics cvss_patterns
      rw [List.foldl_cons, List.foldl_cons, List.foldl_cons, List.foldl_cons, List.foldl_cons,
        List.foldl_cons, List.foldl_cons, List.foldl_cons, List.foldl_nil]
      rw [lookup_detect_step_ne _ _ _ _ (by decide)]
      rw [lookup_detect_step_ne _ _ _ _ (by decide)]
      rw [lookup_detect_step_ne _ _ _ _ (by decide)]
      rw [lookup_detect_step_ne _ _ _ _ (by decide)]
      rw [lookup_detect_step_self _ _ _ _ (by rw [lookup_detect_step_ne _ _ _ _ (by decide)]; rw [lookup_detect_step_ne _ _ _ _ (by decide)]; rw [lookup_detect_step_ne _ _ _ _ (by decide)]; rfl)]
      exact detectValue_none_of_no_match _ _ (fun vp hvp => Bool.eq_false_iff.mpr (h vp hvp)) _
    · unfold detect_cvss_metrics cvss_patterns
      rw [List.foldl_cons, List.foldl_cons, List.foldl_cons, List.foldl_cons, List.foldl_cons,
        List.foldl_cons, List.foldl_cons, List.foldl_cons, List.foldl_nil]
      rw [lookup_detect_step_ne _ _ _ _ (by decide)]
      rw [lookup_detect_step_ne _ _ _ _ (by decide)]
      rw [lookup_detect_step_ne _ _ _ _ (by decide)]
      rw [lookup_detect_step_self _ _ _ _ (by rw [lookup_detect_step_ne _ _ _ _ (by decide)]; rw [lookup_detect_step_ne _ _ _ _ (by decide)]; rw [lookup_detect_step_ne _ _ _ _ (by decide)]; rw [lookup_detect_step_ne _ _ _ _ (by decide)]; rfl)]
      exact detectValue_none_of_no_match _ _ (fun vp hvp => Bool.eq_false_iff.mpr (h vp hvp)) _
    · unfold detect_cvss_metrics cvss_patterns
      rw [List.foldl_cons, List.foldl_cons, List.foldl_cons, List.foldl_cons, List.foldl_cons,
        List.foldl_cons, List.foldl_cons, List.foldl_cons, List.foldl_nil]
      rw [lookup_detect_step_ne _ _ _ _ (by decide)]
      rw [lookup_detect_step_ne _ _ _ _ (by decide)]
      rw [lookup_detect_step_self _ _ _ _ (by rw [lookup_detect_step_ne _ _ _ _ (by decide)]; rw [lookup_detect_step_ne _ _ _ _ (by decide)]; rw [lookup_detect_step_ne _ _ _ _ (by decide)]; rw [lookup_detect_step_ne _ _ _ _ (by decide)]; rw [lookup_detect_step_ne _ _ _ _ (by decide)]; rfl)]
      exact detectValue_none_of_no_match _ _ (fun vp hvp => Bool.eq_false_iff.mpr (h vp hvp)) _
    · unfold detect_cvss_metrics cvss_patterns
      rw [List.foldl_cons, List.foldl_cons, List.foldl_cons, List.foldl_cons, List.foldl_cons,
        List.foldl_cons, List.foldl_cons, List.foldl_cons, List.foldl_nil]
      rw [lookup_detect_step_ne _ _ _ _ (by decide)]
      rw [lookup_detect_step_self _ _ _ _ (by rw [lookup_detect_step_ne _ _ _ _ (by decide)]; rw [lookup_detect_step_ne _ _ _ _ (by decide)]; rw [lookup_detect_step_ne _ _ _ _ (by decide)]; rw [lookup_detect_step_ne _ _ _ _ (by decide)]; rw [lookup_detect_step_ne _ _ _ _ (by decide)]; rw [lookup_detect_step_ne _ _ _ _ (by decide)]; rfl)]
      exact detectValue_none_of_no_match _ _ (fun vp hvp => Bool.eq_false_iff.mpr (h vp hvp)) _
    · unfold detect_cvss_metrics cvss_patterns
      rw [List.foldl_cons, List.foldl_cons, List.foldl_cons, List.foldl_cons, List.foldl_cons,
        List.foldl_cons, List.foldl_cons, List.foldl_cons, List.foldl_nil]
      rw [lookup_detect_step_self _ _ _ _ (by rw [lookup_detect_step_ne _ _ _ _ (by decide)]; rw [lookup_detect_step_ne _ _ _ _ (by decide)]; rw [lookup_detect_step_ne _ _ _ _ (by decide)]; rw [lookup_detect_step_ne _ _ _ _ (by decide)]; rw [lookup_detect_step_ne _ _ _ _ (by decide)]; rw [lookup_detect_step_ne _ _ _ _ (by decide)]; rw [lookup_detect_step_ne _ _ _ _ (by decide)]; rfl)]
      exact detectValue_none_of_no_match _ _ (fun vp hvp => Bool.eq_false_iff.mpr (h vp hvp)) _
  · have hkeys : ∀ mp ∈ cvss_patterns, mp.1 ∈ ["AV", "AC", "PR", "UI", "S", "C", "I", "A"] := by
      decide
    unfold detect_cvss_metrics
    rw [lookup_detect_fold_ne _ _ _ _ (fun mp hmp hc => hm (by rw [← hc]; exact hkeys mp hmp))]
    rfl

/-- Concrete witness for the amended C1: empty text, metric AV. -/
theorem C1_amended_unmatched_metric_absent_witness :
    metric_matched "" "AV" = false ∧ List.lookup "AV" (detect_cvss_metrics "") = none :=
  ⟨by decide, C1_amended_unmatched_metric_absent "" "AV" (by decide)⟩

/-- Claim C8: on the specification's scenario text, inference returns
exactly `{AV:N, AC:L, PR:N, UI:N, S:C, C:H, I:H, A:H}` and no CVE id,
and feeding those metrics to `compute_base_score` yields the vector
`CVSS:3.1/AV:N/AC:L/PR:N/UI:N/S:C/C:H/I:H/A:H` and severity `Critical`. -/
theorem C8_scenario_text :
    detect_cvss_metrics c8_text =
        [("AV", "N"), ("AC", "L"), ("PR", "N"), ("UI", "N"), ("S", "C"), ("C", "H"), ("I", "H"), ("A", "H")] ∧
      extract_cve_id c8_text = none ∧
      (calculate_base_score (detect_cvss_metrics c8_text)).2.1 = "Critical" ∧
      (calculate_base_score (detect_cvss_metrics c8_text)).2.2 =
        "CVSS:3.1/AV:N/AC:L/PR:N/UI:N/S:C/C:H/I:H/A:H" := by
  have hdet : detect_cvss_metrics c8_text = critInput := by decide
  refine ⟨hdet, by decide, ?_, ?_⟩
  · rw [hdet]
    exact crit_severity
  · rw [hdet]
    decide

/-! ### Claim C4: the vector string round-trips -/

/-- Split a character list on a separator character; the list-level
analogue of splitting a string, used to re-extract the vector tokens. -/

lemma splitChar_cons (sep ch : Char) (l : List Char) :
    splitChar sep (ch :: l) =
      if ch = sep then [] :: splitChar sep l
      else match splitChar sep l with
        | [] => [[ch]]
        | g :: gs => (ch :: g) :: gs := rfl

lemma splitChar_no_sep (sep : Char) : ∀ l : List Char, sep ∉ l → splitChar sep l = [l] := by
  intro l
  induction l with
  | nil => intro _; rfl
  | cons ch t ih =>
    intro h
    rw [splitChar_cons, if_neg (fun hch => h (by rw [← hch]; exact List.mem_cons_self _ _)),
      ih (fun hm => h (List.mem_cons_of_mem _ hm))]

lemma splitChar_append_sep (sep : Char) : ∀ (l1 l2 : List Char), sep ∉ l1 →
    splitChar sep (l1 ++ sep :: l2) = l1 :: splitChar sep l2 := by
  intro l1
  induction l1 with
  | nil =>
    intro l2 _
    rw [List.nil_append, splitChar_cons, if_pos rfl]
  | cons ch t ih =>
    intro l2 h
    rw [List.cons_append, splitChar_cons,
      if_neg (fun hch => h (by rw [← hch]; exact List.mem_cons_self _ _)),
      ih l2 (fun hm => h (List.mem_cons_of_mem _ hm))]

lemma slash_notin_token (x : List Char) (ch : Char) (hx : ('/' : Char) ∉ x) (hc : ¬ ch = '/') :
    ('/' : Char) ∉ x ++ ':' :: [ch] := by
  intro hmem
  rcases List.mem_append.mp hmem with h | h
  · exact hx h
  · rcases List.mem_cons.mp h with h | h
    · exact absurd h (by decide)
    · rcases List.mem_cons.mp h with h | h
      · exact hc h.symm
      · simp at h

lemma colon_notin_single (ch : Char) (h : ¬ ch = ':') : (':' : Char) ∉ [ch] := by
  intro hm
  rcases List.mem_cons.mp hm with hm | hm
  · exact h hm.symm
  · simp at hm

lemma intercalate_nine (x1 x2 x3 x4 x5 x6 x7 x8 x9 : String) :
    String.intercalate "/" [x1, x2, x3, x4, x5, x6, x7, x8, x9] =
      x1 ++ "/" ++ x2 ++ "/" ++ x3 ++ "/" ++ x4 ++ "/" ++ x5 ++ "/" ++ x6 ++ "/" ++ x7 ++ "/" ++ x8 ++ "/" ++ x9 := by
  simp [String.intercalate, String.intercalate.go, String.append_assoc]

/-- Claim C4: for every fully normalized MetricSet (all eight keys with
legal uppercase values), the vector string is the literal `CVSS:3.1`
followed by the eight metrics in the fixed order AV, AC, PR, UI, S, C, I,
A, each rendered as `CODE:VALUE` and joined by `/`; re-extracting the
eight `CODE:VALUE` tokens from that string yields exactly the input
mapping in that order. -/
theorem C4_vector_roundtrip (av ac pr ui s c i a : String)
    (hav : av ∈ ["N", "A", "L", "P"]) (hac : ac ∈ ["L", "H"]) (hpr : pr ∈ ["N", "L", "H"])
    (hui : ui ∈ ["N", "R"]) (hs : s ∈ ["U", "C"]) (hc : c ∈ ["N", "L", "H"])
    (hi : i ∈ ["N", "L", "H"]) (ha : a ∈ ["N", "L", "H"]) :
    build_vector [("AV", av), ("AC", ac), ("PR", pr), ("UI", ui), ("S", s), ("C", c), ("I", i), ("A", a)] =
        String.intercalate "/" ["CVSS:3.1", "AV:" ++ av, "AC:" ++ ac, "PR:" ++ pr, "UI:" ++ ui, "S:" ++ s, "C:" ++ c, "I:" ++ i, "A:" ++ a] ∧
      extract_tokens (build_vector [("AV", av), ("AC", ac), ("PR", pr), ("UI", ui), ("S", s), ("C", c), ("I", i), ("A", a)]) = [("AV", av), ("AC", ac), ("PR", pr), ("UI", ui), ("S", s), ("C", c), ("I", i), ("A", a)] := by
  obtain ⟨cav, hd_av, hs_av, hcol_av, hup_av⟩ :
      ∃ ch, av.data = [ch] ∧ ¬ ch = '/' ∧ ¬ ch = ':' ∧ pyUpper av = av := by
    simp only [List.mem_cons, List.not_mem_nil, or_false] at hav
    rcases hav with rfl | rfl | rfl | rfl <;> exact ⟨_, rfl, by decide, by decide, by decide⟩
  obtain ⟨cac, hd_ac, hs_ac, hcol_ac, hup_ac⟩ :
      ∃ ch, ac.data = [ch] ∧ ¬ ch = '/' ∧ ¬ ch = ':' ∧ pyUpper ac = ac := by
    simp only [List.mem_cons, List.not_mem_nil, or_false] at hac
    rcases hac with rfl | rfl <;> exact ⟨_, rfl, by decide, by decide, by decide⟩
  obtain ⟨cpr, hd_pr, hs_pr, hcol_pr, hup_pr⟩ :
      ∃ ch, pr.data = [ch] ∧ ¬ ch = '/' ∧ ¬ ch = ':' ∧ pyUpper pr = pr := by
    simp only [List.mem_cons, List.not_mem_nil, or_false] at hpr
    rcases hpr with rfl | rfl | rfl <;> exact ⟨_, rfl, by decide, by decide, by decide⟩
  obtain ⟨cui, hd_ui, hs_ui, hcol_ui, hup_ui⟩ :
      ∃ ch, ui.data = [ch] ∧ ¬ ch = '/' ∧ ¬ ch = ':' ∧ pyUpper ui = ui := by
    simp only [List.mem_cons, List.not_mem_nil, or_false] at hui
    rcases hui with rfl | rfl <;> exact ⟨_, rfl, by decide, by decide, by decide⟩
  obtain ⟨cs, hd_s, hs_s, hcol_s, hup_s⟩ :
      ∃ ch, s.data = [ch] ∧ ¬ ch = '/' ∧ ¬ ch = ':' ∧ pyUpper s = s := by
    simp only [List.mem_cons, List.not_mem_nil, or_false] at hs
    rcases hs with rfl | rfl <;> exact ⟨_, rfl, by decide, by decide, by decide⟩
  obtain ⟨cc, hd_c, hs_c, hcol_c, hup_c⟩ :
      ∃ ch, c.data = [ch] ∧ ¬ ch = '/' ∧ ¬ ch = ':' ∧ pyUpper c = c := by
    simp only [List.mem_cons, List.not_mem_nil, or_false] at hc
    rcases hc with rfl | rfl | rfl <;> exact ⟨_, rfl, by decide, by decide, by decide⟩
  obtain ⟨ci, hd_i, hs_i, hcol_i, hup_i⟩ :
      ∃ ch, i.data = [ch] ∧ ¬ ch = '/' ∧ ¬ ch = ':' ∧ pyUpper i = i := by
    simp only [List.mem_cons, List.not_mem_nil, or_false] at hi
    rcases hi with rfl | rfl | rfl <;> exact ⟨_, rfl, by decide, by decide, by decide⟩
  obtain ⟨caa, hd_a, hs_a, hcol_a, hup_a⟩ :
      ∃ ch, a.data = [ch] ∧ ¬ ch = '/' ∧ ¬ ch = ':' ∧ pyUpper a = a := by
    simp only [List.mem_cons, List.not_mem_nil, or_false] at ha
    rcases ha with rfl | rfl | rfl <;> exact ⟨_, rfl, by decide, by decide, by decide⟩
  have hclean : cleanDict [("AV", av), ("AC", ac), ("PR", pr), ("UI", ui), ("S", s), ("C", c), ("I", i), ("A", a)] := by
    refine ⟨?_, by
      rw [show List.map Prod.fst [("AV", av), ("AC", ac), ("PR", pr), ("UI", ui), ("S", s), ("C", c), ("I", i), ("A", a)] =
        ["AV", "AC", "PR", "UI", "S", "C", "I", "A"] from rfl]
      decide⟩
    intro p hp
    simp only [List.mem_cons, List.not_mem_nil, or_false] at hp
    rcases hp with rfl | rfl | rfl | rfl | rfl | rfl | rfl | rfl
    · exact ⟨by show pyUpper "AV" = "AV"; decide, hup_av⟩
    · exact ⟨by show pyUpper "AC" = "AC"; decide, hup_ac⟩
    · exact ⟨by show pyUpper "PR" = "PR"; decide, hup_pr⟩
    · exact ⟨by show pyUpper "UI" = "UI"; decide, hup_ui⟩
    · exact ⟨by show pyUpper "S" = "S"; decide, hup_s⟩
    · exact ⟨by show pyUpper "C" = "C"; decide, hup_c⟩
    · exact ⟨by show pyUpper "I" = "I"; decide, hup_i⟩
    · exact ⟨by show pyUpper "A" = "A"; decide, hup_a⟩
  have hlk_av : List.lookup "AV" [("AV", av), ("AC", ac), ("PR", pr), ("UI", ui), ("S", s), ("C", c), ("I", i), ("A", a)] = some av := by
    rw [lookup_cons_pair, if_pos rfl]
  have hlk_ac : List.lookup "AC" [("AV", av), ("AC", ac), ("PR", pr), ("UI", ui), ("S", s), ("C", c), ("I", i), ("A", a)] = some ac := by
    rw [lookup_cons_pair, if_neg (by decide)]
    rw [lookup_cons_pair, if_pos rfl]
  have hlk_pr : List.lookup "PR" [("AV", av), ("AC", ac), ("PR", pr), ("UI", ui), ("S", s), ("C", c), ("I", i), ("A", a)] = some pr := by
    rw [lookup_cons_pair, if_neg (by decide)]
    rw [lookup_cons_pair, if_neg (by decide)]
    rw [lookup_cons_pair, if_pos rfl]
  have hlk_ui : List.lookup "UI" [("AV", av), ("AC", ac), ("PR", pr), ("UI", ui), ("S", s), ("C", c), ("I", i), ("A", a)] = some ui := by
    rw [lookup_cons_pair, if_neg (by decide)]
    rw [lookup_cons_pair, if_neg (by decide)]
    rw [lookup_cons_pair, if_neg (by decide)]
    rw [lookup_cons_pair, if_pos rfl]
  have hlk_s : List.lookup "S" [("AV", av), ("AC", ac), ("PR", pr), ("UI", ui), ("S", s), ("C", c), ("I", i), ("A", a)] = some s := by
    rw [lookup_cons_pair, if_neg (by decide)]
    rw [lookup_cons_pair, if_neg (by decide)]
    rw [lookup_cons_pair, if_neg (by decide)]
    rw [lookup_cons_pair, if_neg (by decide)]
    rw [lookup_cons_pair, if_pos rfl]
  have hlk_c : List.lookup "C" [("AV", av), ("AC", ac), ("PR", pr), ("UI", ui), ("S", s), ("C", c), ("I", i), ("A", a)] = some c := by
    rw [lookup_cons_pair, if_neg (by decide)]
    rw [lookup_cons_pair, if_neg (by decide)]
    rw [lookup_cons_pair, if_neg (by decide)]
    rw [lookup_cons_pair, if_neg (by decide)]
    rw [lookup_cons_pair, if_neg (by decide)]
    rw [lookup_cons_pair, if_pos rfl]
  have hlk_i : List.lookup "I" [("AV", av), ("AC", ac), ("PR", pr), ("UI", ui), ("S", s), ("C", c), ("I", i), ("A", a)] = some i := by
    rw [lookup_cons_pair, if_neg (by decide)]
    rw [lookup_cons_pair, if_neg (by decide)]
    rw [lookup_cons_pair, if_neg (by decide)]
    rw [lookup_cons_pair, if_neg (by decide)]
    rw [lookup_cons_pair, if_neg (by decide)]
    rw [lookup_cons_pair, if_neg (by decide)]
    rw [lookup_cons_pair, if_pos rfl]
  have hlk_a : List.lookup "A" [("AV", av), ("AC", ac), ("PR", pr), ("UI", ui), ("S", s), ("C", c), ("I", i), ("A", a)] = some a := by
    rw [lookup_cons_pair, if_neg (by decide)]
    rw [lookup_cons_pair, if_neg (by decide)]
    rw [lookup_cons_pair, if_neg (by decide)]
    rw [lookup_cons_pair, if_neg (by decide)]
    rw [lookup_cons_pair, if_neg (by decide)]
    rw [lookup_cons_pair, if_neg (by decide)]
    rw [lookup_cons_pair, if_neg (by decide)]
    rw [lookup_cons_pair, if_pos rfl]
  have hg_av : mget (vector_merge [("AV", av), ("AC", ac), ("PR", pr), ("UI", ui), ("S", s), ("C", c), ("I", i), ("A", a)]) "AV" = av := by
    have hm : List.lookup "AV" (vector_merge [("AV", av), ("AC", ac), ("PR", pr), ("UI", ui), ("S", s), ("C", c), ("I", i), ("A", a)]) = some (pyUpper av) := by
      unfold vector_merge
      exact lookup_merge_clean _ _ _ _ hclean hlk_av
    rw [show mget (vector_merge [("AV", av), ("AC", ac), ("PR", pr), ("UI", ui), ("S", s), ("C", c), ("I", i), ("A", a)]) "AV" =
      (List.lookup "AV" (vector_merge [("AV", av), ("AC", ac), ("PR", pr), ("UI", ui), ("S", s), ("C", c), ("I", i), ("A", a)])).getD "" from rfl, hm, hup_av]
    rfl
  have hg_ac : mget (vector_merge [("AV", av), ("AC", ac), ("PR", pr), ("UI", ui), ("S", s), ("C", c), ("I", i), ("A", a)]) "AC" = ac := by
    have hm : List.lookup "AC" (vector_merge [("AV", av), ("AC", ac), ("PR", pr), ("UI", ui), ("S", s), ("C", c), ("I", i), ("A", a)]) = some (pyUpper ac) := by
      unfold vector_merge
      exact lookup_merge_clean _ _ _ _ hclean hlk_ac
    rw [show mget (vector_merge [("AV", av), ("AC", ac), ("PR", pr), ("UI", ui), ("S", s), ("C", c), ("I", i), ("A", a)]) "AC" =
      (List.lookup "AC" (vector_merge [("AV", av), ("AC", ac), ("PR", pr), ("UI", ui), ("S", s), ("C", c), ("I", i), ("A", a)])).getD "" from rfl, hm, hup_ac]
    rfl
  have hg_pr : mget (vector_merge [("AV", av), ("AC", ac), ("PR", pr), ("UI", ui), ("S", s), ("C", c), ("I", i), ("A", a)]) "PR" = pr := by
    have hm : List.lookup "PR" (vector_merge [("AV", av), ("AC", ac), ("PR", pr), ("UI", ui), ("S", s), ("C", c), ("I", i), ("A", a)]) = some (pyUpper pr) := by
      unfold vector_merge
      exact lookup_merge_clean _ _ _ _ hclean hlk_pr
    rw [show mget (vector_merge [("AV", av), ("AC", ac), ("PR", pr), ("UI", ui), ("S", s), ("C", c), ("I", i), ("A", a)]) "PR" =
      (List.lookup "PR" (vector_merge [("AV", av), ("AC", ac), ("PR", pr), ("UI", ui), ("S", s), ("C", c), ("I", i), ("A", a)])).getD "" from rfl, hm, hup_pr]
    rfl
  have hg_ui : mget (vector_merge [("AV", av), ("AC", ac), ("PR", pr), ("UI", ui), ("S", s), ("C", c), ("I", i), ("A", a)]) "UI" = ui := by
    have hm : List.lookup "UI" (vector_merge [("AV", av), ("AC", ac), ("PR", pr), ("UI", ui), ("S", s), ("C", c), ("I", i), ("A", a)]) = some (pyUpper ui) := by
      unfold vector_merge
      exact lookup_merge_clean _ _ _ _ hclean hlk_ui
    rw [show mget (vector_merge [("AV", av), ("AC", ac), ("PR", pr), ("UI", ui), ("S", s), ("C", c), ("I", i), ("A", a)]) "UI" =
      (List.lookup "UI" (vector_merge [("AV", av), ("AC", ac), ("PR", pr), ("UI", ui), ("S", s), ("C", c), ("I", i), ("A", a)])).getD "" from rfl, hm, hup_ui]
    rfl
  have hg_s : mget (vector_merge [("AV", av), ("AC", ac), ("PR", pr), ("UI", ui), ("S", s), ("C", c), ("I", i), ("A", a)]) "S" = s := by
    have hm : List.lookup "S" (vector_merge [("AV", av), ("AC", ac), ("PR", pr), ("UI", ui), ("S", s), ("C", c), ("I", i), ("A", a)]) = some (pyUpper s) := by
      unfold vector_merge
      exact lookup_merge_clean _ _ _ _ hclean hlk_s
    rw [show mget (vector_merge [("AV", av), ("AC", ac), ("PR", pr), ("UI", ui), ("S", s), ("C", c), ("I", i), ("A", a)]) "S" =
      (List.lookup "S" (vector_merge [("AV", av), ("AC", ac), ("PR", pr), ("UI", ui), ("S", s), ("C", c), ("I", i), ("A", a)])).getD "" from rfl, hm, hup_s]
    rfl
  have hg_c : mget (vector_merge [("AV", av), ("AC", ac), ("PR", pr), ("UI", ui), ("S", s), ("C", c), ("I", i), ("A", a)]) "C" = c := by
    have hm : List.lookup "C" (vector_merge [("AV", av), ("AC", ac), ("PR", pr), ("UI", ui), ("S", s), ("C", c), ("I", i), ("A", a)]) = some (pyUpper c) := by
      unfold vector_merge
      exact lookup_merge_clean _ _ _ _ hclean hlk_c
    rw [show mget (vector_merge [("AV", av), ("AC", ac), ("PR", pr), ("UI", ui), ("S", s), ("C", c), ("I", i), ("A", a)]) "C" =
      (List.lookup "C" (vector_merge [("AV", av), ("AC", ac), ("PR", pr), ("UI", ui), ("S", s), ("C", c), ("I", i), ("A", a)])).getD "" from rfl, hm, hup_c]
    rfl
  have hg_i : mget (vector_merge [("AV", av), ("AC", ac), ("PR", pr), ("UI", ui), ("S", s), ("C", c), ("I", i), ("A", a)]) "I" = i := by
    have hm : List.lookup "I" (vector_merge [("AV", av), ("AC", ac), ("PR", pr), ("UI", ui), ("S", s), ("C", c), ("I", i), ("A", a)]) = some (pyUpper i) := by
      unfold vector_merge
      exact lookup_merge_clean _ _ _ _ hclean hlk_i
    rw [show mget (vector_merge [("AV", av), ("AC", ac), ("PR", pr), ("UI", ui), ("S", s), ("C", c), ("I", i), ("A", a)]) "I" =
      (List.lookup "I" (vector_merge [("AV", av), ("AC", ac), ("PR", pr), ("UI", ui), ("S", s), ("C", c), ("I", i), ("A", a)])).getD "" from rfl, hm, hup_i]
    rfl
  have hg_a : mget (vector_merge [("AV", av), ("AC", ac), ("PR", pr), ("UI", ui), ("S", s), ("C", c), ("I", i), ("A", a)]) "A" = a := by
    have hm : List.lookup "A" (vector_merge [("AV", av), ("AC", ac), ("PR", pr), ("UI", ui), ("S", s), ("C", c), ("I", i), ("A", a)]) = some (pyUpper a) := by
      unfold vector_merge
      exact lookup_merge_clean _ _ _ _ hclean hlk_a
    rw [show mget (vector_merge [("AV", av), ("AC", ac), ("PR", pr), ("UI", ui), ("S", s), ("C", c), ("I", i), ("A", a)]) "A" =
      (List.lookup "A" (vector_merge [("AV", av), ("AC", ac), ("PR", pr), ("UI", ui), ("S", s), ("C", c), ("I", i), ("A", a)])).getD "" from rfl, hm, hup_a]
    rfl
  have hbv : build_vector [("AV", av), ("AC", ac), ("PR", pr), ("UI", ui), ("S", s), ("C", c), ("I", i), ("A", a)] = "CVSS:3.1" ++ "/" ++ ("AV:" ++ av) ++ "/" ++ ("AC:" ++ ac) ++ "/" ++ ("PR:" ++ pr) ++ "/" ++ ("UI:" ++ ui) ++ "/" ++ ("S:" ++ s) ++ "/" ++ ("C:" ++ c) ++ "/" ++ ("I:" ++ i) ++ "/" ++ ("A:" ++ a) := by
    rw [build_vector_parts, hg_av, hg_ac, hg_pr, hg_ui, hg_s, hg_c, hg_i, hg_a]
  constructor
  · rw [hbv, intercalate_nine]
  have hdata : (build_vector [("AV", av), ("AC", ac), ("PR", pr), ("UI", ui), ("S", s), ("C", c), ("I", i), ("A", a)]).data = ['C','V','S','S',':','3','.','1'] ++ '/' :: ((['A', 'V'] ++ ':' :: [cav]) ++ '/' :: ((['A', 'C'] ++ ':' :: [cac]) ++ '/' :: ((['P', 'R'] ++ ':' :: [cpr]) ++ '/' :: ((['U', 'I'] ++ ':' :: [cui]) ++ '/' :: ((['S'] ++ ':' :: [cs]) ++ '/' :: ((['C'] ++ ':' :: [cc]) ++ '/' :: ((['I'] ++ ':' :: [ci]) ++ '/' :: (['A'] ++ ':' :: [caa])))))))) := by
    rw [hbv]
    simp only [String.data_append, hd_av, hd_ac, hd_pr, hd_ui, hd_s, hd_c, hd_i, hd_a]
    simp [List.append_assoc]
  have hsplit : splitChar '/' (build_vector [("AV", av), ("AC", ac), ("PR", pr), ("UI", ui), ("S", s), ("C", c), ("I", i), ("A", a)]).data = ['C','V','S','S',':','3','.','1'] :: (['A', 'V'] ++ ':' :: [cav]) :: (['A', 'C'] ++ ':' :: [cac]) :: (['P', 'R'] ++ ':' :: [cpr]) :: (['U', 'I'] ++ ':' :: [cui]) :: (['S'] ++ ':' :: [cs]) :: (['C'] ++ ':' :: [cc]) :: (['I'] ++ ':' :: [ci]) :: [(['A'] ++ ':' :: [caa])] := by
    rw [hdata]
    rw [splitChar_append_sep '/' ['C','V','S','S',':','3','.','1'] _ (by decide)]
    rw [splitChar_append_sep '/' (['A', 'V'] ++ ':' :: [cav]) _ (slash_notin_token _ _ (by decide) hs_av)]
    rw [splitChar_append_sep '/' (['A', 'C'] ++ ':' :: [cac]) _ (slash_notin_token _ _ (by decide) hs_ac)]
    rw [splitChar_append_sep '/' (['P', 'R'] ++ ':' :: [cpr]) _ (slash_notin_token _ _ (by decide) hs_pr)]
    rw [splitChar_append_sep '/' (['U', 'I'] ++ ':' :: [cui]) _ (slash_notin_token _ _ (by decide) hs_ui)]
    rw [splitChar_append_sep '/' (['S'] ++ ':' :: [cs]) _ (slash_notin_token _ _ (by decide) hs_s)]
    rw [splitChar_append_sep '/' (['C'] ++ ':' :: [cc]) _ (slash_notin_token _ _ (by decide) hs_c)]
    rw [splitChar_append_sep '/' (['I'] ++ ':' :: [ci]) _ (slash_notin_token _ _ (by decide) hs_i)]
    rw [splitChar_no_sep '/' (['A'] ++ ':' :: [caa]) (slash_notin_token _ _ (by decide) hs_a)]
  unfold extract_tokens
  rw [hsplit]
  dsimp only [List.drop, List.map]
  rw [splitChar_append_sep ':' ['A', 'V'] [cav] (by decide)]
  rw [splitChar_no_sep ':' [cav] (colon_notin_single _ hcol_av)]
  rw [splitChar_append_sep ':' ['A', 'C'] [cac] (by decide)]
  rw [splitChar_no_sep ':' [cac] (colon_notin_single _ hcol_ac)]
  rw [splitChar_append_sep ':' ['P', 'R'] [cpr] (by decide)]
  rw [splitChar_no_sep ':' [cpr] (colon_notin_single _ hcol_pr)]
  rw [splitChar_append_sep ':' ['U', 'I'] [cui] (by decide)]
  rw [splitChar_no_sep ':' [cui] (colon_notin_single _ hcol_ui)]
  rw [splitChar_append_sep ':' ['S'] [cs] (by decide)]
  rw [splitChar_no_sep ':' [cs] (colon_notin_single _ hcol_s)]
  rw [splitChar_append_sep ':' ['C'] [cc] (by decide)]
  rw [splitChar_no_sep ':' [cc] (colon_notin_single _ hcol_c)]
  rw [splitChar_append_sep ':' ['I'] [ci] (by decide)]
  rw [splitChar_no_sep ':' [ci] (colon_notin_single _ hcol_i)]
  rw [splitChar_append_sep ':' ['A'] [caa] (by decide)]
  rw [splitChar_no_sep ':' [caa] (colon_notin_single _ hcol_a)]
  dsimp only
  rw [show String.mk [cav] = av from by rw [← hd_av], show String.mk [cac] = ac from by rw [← hd_ac], show String.mk [cpr] = pr from by rw [← hd_pr], show String.mk [cui] = ui from by rw [← hd_ui], show String.mk [cs] = s from by rw [← hd_s], show String.mk [cc] = c from by rw [← hd_c], show String.mk [ci] = i from by rw [← hd_i], show String.mk [caa] = a from by rw [← hd_a]]

/-- Concrete witness for C4 at the all-default normalized MetricSet. -/
theorem C4_vector_roundtrip_witness :
    build_vector [("AV", "L"), ("AC", "H"), ("PR", "N"), ("UI", "N"), ("S", "U"), ("C", "N"), ("I", "N"), ("A", "N")] =
        String.intercalate "/" ["CVSS:3.1", "AV:" ++ "L", "AC:" ++ "H", "PR:" ++ "N", "UI:" ++ "N", "S:" ++ "U", "C:" ++ "N", "I:" ++ "N", "A:" ++ "N"] ∧
      extract_tokens (build_vector [("AV", "L"), ("AC", "H"), ("PR", "N"), ("UI", "N"), ("S", "U"), ("C", "N"), ("I", "N"), ("A", "N")]) =
        [("AV", "L"), ("AC", "H"), ("PR", "N"), ("UI", "N"), ("S", "U"), ("C", "N"), ("I", "N"), ("A", "N")] :=
  C4_vector_roundtrip "L" "H" "N" "N" "U" "N" "N" "N" (by decide) (by decide) (by decide)
    (by decide) (by decide) (by decide) (by decide) (by decide)
